import Mathlib

/-
Verification of the ERHelper backend (src/backend/app.py) against its
natural-language specification.

The development is a shallow embedding of the Python source:

  * a spreadsheet / dataframe cell is a `Cell` (missing value, number, or
    string); pandas floats are modelled as exact rationals;
  * a pandas `DataFrame` is a column-name list plus a list of rows, where a
    row is an association list from column name to cell (a cell missing from
    a row reads as NaN, as in pandas);
  * Python exceptions (KeyError on a missing column, TypeError on a
    string/number comparison, a regex error, a missing sheet) are modelled
    with `Except String`;
  * the process-wide mutable state (the loaded dataset, the advisory cache
    and its on-disk artifact) is passed explicitly;
  * the external reasoning service is an injected function
    `String → Except String String`.

Deliberate modelling boundaries, each noted again at its use site:

  * `str()` of a non-string cell is approximated by `pyStr`; the loader and
    the cache-key logic only ever compare such strings against fixed words
    like "Name" or "immune", which no numeric rendering can equal;
  * Python `float()` / `int()` string parsing is implemented for decimal
    literals with optional sign, fraction and exponent; exotic forms
    ("inf", "nan", digit underscores) parse as failures;
  * pandas `Series.str.contains(pat, case=False, regex=True)` is embedded
    as case-insensitive substring search, which is its behaviour on
    patterns free of regex metacharacters; theorems that quantify over
    query strings therefore carry an `isLiteralPattern` hypothesis.
-/

set_option maxRecDepth 4000

/-- A raw spreadsheet / dataframe cell: missing (NaN/None), numeric (pandas
floats modelled as exact rationals), or textual. -/
inductive Cell
  | na
  | num (q : ℚ)
  | str (s : String)
deriving Repr, DecidableEq, BEq

/-- Python `str()` of a cell, used by the loader (`str(c).strip()`) and the
resistance/poise parsers (`str(value)`).  String cells pass through exactly;
the textual rendering of numbers and NaN is approximated, which is harmless
because every consumer only compares the result against fixed words
("Name", "immune", "inf", "∞") that no such rendering can equal. -/
def pyStr : Cell → String
  | Cell.str s => s
  | Cell.num q => "num:" ++ toString q
  | Cell.na => "nan"

/-- ASCII-wise lowercasing (Python `.lower()`), implemented over the
character list so that it evaluates by definitional unfolding. -/
def pyLower (s : String) : String :=
  String.mk (s.toList.map Char.toLower)

/-- An ASCII whitespace character, as stripped by Python `.strip()` and
`float()`/`int()` conversion. -/
def isSpaceChar (c : Char) : Bool :=
  decide (c = ' ' ∨ c = '\t' ∨ c = '\n' ∨ c = '\r' ∨ c = '\x0b' ∨ c = '\x0c')

/-- Python `.strip()`: drop leading and trailing whitespace. -/
def pyStrip (s : String) : String :=
  String.mk (((s.toList.dropWhile isSpaceChar).reverse.dropWhile isSpaceChar).reverse)

/-- The numeric payload of a cell, if any. -/
def cellNum? : Cell → Option ℚ
  | Cell.num q => some q
  | _ => none

/-- Whether a cell is a string (used to model TypeErrors raised when pandas
arithmetic meets a textual cell). -/
def cellIsStr : Cell → Bool
  | Cell.str _ => true
  | _ => false

/-- Numeric value of a list of decimal digit characters. -/
def digitsVal (l : List Char) : ℕ :=
  l.foldl (fun a c => a * 10 + (c.toNat - 48)) 0

/-- Parse the exponent suffix of a Python float literal: `e`/`E`, an
optional sign, then at least one digit. -/
def parseExp (l : List Char) : Option ℤ :=
  match l with
  | [] => none
  | c :: rest =>
    if c = 'e' ∨ c = 'E' then
      match rest with
      | '+' :: ds => if ds ≠ [] ∧ ds.all Char.isDigit then some (digitsVal ds : ℤ) else none
      | '-' :: ds => if ds ≠ [] ∧ ds.all Char.isDigit then some (-(digitsVal ds : ℤ)) else none
      | ds => if ds ≠ [] ∧ ds.all Char.isDigit then some (digitsVal ds : ℤ) else none
    else none

/-- Parse an unsigned Python float literal: digits, `digits.digits`,
`.digits` or `digits.`, with an optional exponent. -/
def parseUnsigned? (l : List Char) : Option ℚ :=
  let intPart := l.takeWhile Char.isDigit
  let rest1 := l.dropWhile Char.isDigit
  match rest1 with
  | '.' :: rest2 =>
    let fracPart := rest2.takeWhile Char.isDigit
    let rest3 := rest2.dropWhile Char.isDigit
    if intPart = [] ∧ fracPart = [] then none
    else
      let mantissa : ℚ :=
        (digitsVal intPart : ℚ) + (digitsVal fracPart : ℚ) / ((10 : ℚ) ^ fracPart.length)
      match rest3 with
      | [] => some mantissa
      | _ =>
        match parseExp rest3 with
        | some e => some (mantissa * (10 : ℚ) ^ e)
        | none => none
  | _ =>
    if intPart = [] then none
    else
      match rest1 with
      | [] => some (digitsVal intPart : ℚ)
      | _ =>
        match parseExp rest1 with
        | some e => some ((digitsVal intPart : ℚ) * (10 : ℚ) ^ e)
        | none => none

/-- Python `float(s)` on a string: leading/trailing whitespace stripped,
optional sign, decimal literal.  IEEE specials ("inf", "nan") and digit
underscores are treated as parse failures; no code path in the claims
exercises them. -/
def parseFloat? (s : String) : Option ℚ :=
  match (pyStrip s).toList with
  | '+' :: rest => parseUnsigned? rest
  | '-' :: rest => (parseUnsigned? rest).map Neg.neg
  | l => parseUnsigned? l

/-- Python `int(s)` on a string: stripped, optional sign, digits only (a
decimal point is a ValueError). -/
def parseInt? (s : String) : Option ℤ :=
  match (pyStrip s).toList with
  | '+' :: ds => if ds ≠ [] ∧ ds.all Char.isDigit then some (digitsVal ds : ℤ) else none
  | '-' :: ds => if ds ≠ [] ∧ ds.all Char.isDigit then some (-(digitsVal ds : ℤ)) else none
  | ds => if ds ≠ [] ∧ ds.all Char.isDigit then some (digitsVal ds : ℤ) else none

/-- Python `int()` applied to a number: truncation toward zero. -/
def truncQ (q : ℚ) : ℤ :=
  if q < 0 then -Rat.floor (-q) else Rat.floor q

/-- Python `round()` to an integer: round half to even. -/
def roundHalfEven (q : ℚ) : ℤ :=
  let f := Rat.floor q
  let r := q - (f : ℚ)
  if r < 1 / 2 then f
  else if 1 / 2 < r then f + 1
  else if f % 2 = 0 then f else f + 1

/-- Python `round(x, 1)`: one decimal place, half to even.  Floats are
modelled as exact rationals, so the binary-representation artifacts of
CPython rounding are out of scope. -/
def roundQ1 (q : ℚ) : ℚ :=
  (roundHalfEven (q * 10) : ℚ) / 10

/-- Arithmetic mean of a list of rationals (`np.mean` / `Series.mean` on
its non-null values). -/
def meanQ (l : List ℚ) : ℚ :=
  l.sum / (l.length : ℚ)

/-- Substring test on character lists. -/
def containsSub (hay pat : List Char) : Bool :=
  match hay with
  | [] => pat.isEmpty
  | c :: t => pat.isPrefixOf (c :: t) || containsSub t pat

/-- pandas `Series.str.contains(pat, case=False, na=False)` on one cell,
for patterns without regex metacharacters: non-string cells give NaN which
`na=False` maps to False; string cells are searched case-insensitively. -/
def str_contains_ci (pat : String) (c : Cell) : Bool :=
  match c with
  | Cell.str s => containsSub (pyLower s).toList (pyLower pat).toList
  | _ => false

/-- The characters that are special in Python regular expressions.  The
substring embedding of `str.contains` above is faithful exactly for
patterns avoiding them. -/
def regexMetachars : List Char :=
  ['.', '^', '$', '*', '+', '?', '\x7b', '\x7d', '[', ']', '\\', '|', '(', ')']

/-- A pattern that the regex engine treats as a literal string. -/
def isLiteralPattern (p : String) : Bool :=
  p.toList.all (fun c => !(regexMetachars.contains c))

/-- First-match lookup in an association list — Python `dict` read. -/
def lookupAssoc {α : Type} (l : List (String × α)) (k : String) : Option α :=
  match l with
  | [] => none
  | p :: rest => if p.1 = k then some p.2 else lookupAssoc rest k

/-- In-place update of the first matching key, appending when absent —
Python `dict` write (insertion order preserved). -/
def updateAssoc {α : Type} (l : List (String × α)) (k : String) (v : α) : List (String × α) :=
  match l with
  | [] => [(k, v)]
  | p :: rest => if p.1 = k then (k, v) :: rest else p :: updateAssoc rest k v

/-- Effectful map for `Except`, modelling a Python loop that appends to a
list and lets the first exception propagate. -/
def mapE {α β : Type} (f : α → Except String β) : List α → Except String (List β)
  | [] => Except.ok []
  | a :: l =>
    match f a with
    | Except.error e => Except.error e
    | Except.ok b =>
      match mapE f l with
      | Except.error e => Except.error e
      | Except.ok bs => Except.ok (b :: bs)

/-- One dataframe row: an association list from column name to cell.  A
column missing from a row reads as NaN (pandas fills short rows with NaN). -/
structure Row where
  cells : List (String × Cell)
deriving Repr, DecidableEq

/-- The value of a row at a column, NaN when the row holds no cell there
(pandas rows always carry every column, missing entries as NaN). -/
def Row.cell (r : Row) (c : String) : Cell :=
  (lookupAssoc r.cells c).getD Cell.na

/-- Assign a cell in a row, replacing an existing entry in place or
appending a new one. -/
def Row.set (r : Row) (c : String) (v : Cell) : Row :=
  ⟨updateAssoc r.cells c v⟩

/-- A pandas DataFrame: the column list plus the rows. -/
structure DataFrame where
  cols : List String
  rows : List Row
deriving Repr, DecidableEq

/-- `df[c]` for a column name: the column's cells, or a KeyError when the
column is absent. -/
def DataFrame.col (df : DataFrame) (c : String) : Except String (List Cell) :=
  if df.cols.contains c then Except.ok (df.rows.map (fun r => r.cell c))
  else Except.error ("KeyError: " ++ c)

/-- `row[c]` on a row series drawn from `df`: the cell, or a KeyError when
`c` is not one of the frame's columns. -/
def DataFrame.item (df : DataFrame) (r : Row) (c : String) : Except String Cell :=
  if df.cols.contains c then Except.ok (r.cell c)
  else Except.error ("KeyError: " ++ c)

/-- `row.get(c)` on a row series drawn from `df`: `None` when the column is
absent, otherwise the cell (possibly NaN). -/
def DataFrame.cellOpt (df : DataFrame) (r : Row) (c : String) : Option Cell :=
  if df.cols.contains c then some (r.cell c) else none

/-- `row.get(c, default)` on a row series drawn from `df`. -/
def DataFrame.cellD (df : DataFrame) (r : Row) (c : String) (d : Cell) : Cell :=
  (df.cellOpt r c).getD d

/-- Sentinel parser `safe_int` (app.py, inside `get_enemy_details`):
missing values and the placeholder dash give the default, otherwise
`int(float(value))`, with every conversion failure giving the default. -/
def safe_int (value : Cell) (default : ℤ) : ℤ :=
  match value with
  | Cell.na => default
  | Cell.num q => truncQ q
  | Cell.str s =>
    if s = "-" then default
    else
      match parseFloat? s with
      | some q => truncQ q
      | none => default

/-- Sentinel parser `safe_float` (app.py, inside `get_enemy_details`). -/
def safe_float (value : Cell) (default : ℚ) : ℚ :=
  match value with
  | Cell.na => default
  | Cell.num q => q
  | Cell.str s =>
    if s = "-" then default
    else (parseFloat? s).getD default

/-- Result of `_format_resistance`: a numeric resistance or the symbolic
Immune marker. -/
inductive ResVal
  | immune
  | val (n : ℤ)
deriving Repr, DecidableEq

/-- Sentinel parser `_format_resistance` (app.py): NaN → 999999,
case-insensitive "immune" → Immune, otherwise `int(value)` with failures
→ 999999.  (`str()` of a numeric cell never equals "immune", so the
string test is folded into the string branch.) -/
def format_resistance (value : Cell) : ResVal :=
  match value with
  | Cell.na => ResVal.val 999999
  | Cell.num q => ResVal.val (truncQ q)
  | Cell.str s =>
    if pyLower s = "immune" then ResVal.immune
    else
      match parseInt? s with
      | some n => ResVal.val n
      | none => ResVal.val 999999

/-- Sentinel parser `_parse_poise` (app.py): NaN → 0, "∞" or
case-insensitive "inf" → 999999, otherwise `int(float(value))` with
failures → 0. -/
def parse_poise (value : Cell) : ℤ :=
  match value with
  | Cell.na => 0
  | Cell.num q => truncQ q
  | Cell.str s =>
    if s = "∞" ∨ pyLower s = "inf" then 999999
    else
      match parseFloat? s with
      | some q => truncQ q
      | none => 0

/-- Python `float(value)` on a cell, as attempted inside
`avg_resistance`: None on conversion failure (NaN cells are screened out
before the call there). -/
def pyFloat? (value : Cell) : Option ℚ :=
  match value with
  | Cell.na => none
  | Cell.num q => some q
  | Cell.str s => parseFloat? s

/-- `pd.to_numeric(c, errors="coerce")` on one cell: numbers pass,
parseable strings convert, everything else becomes NaN. -/
def toNumericCell (c : Cell) : Cell :=
  match c with
  | Cell.na => Cell.na
  | Cell.num q => Cell.num q
  | Cell.str s =>
    match parseFloat? s with
    | some q => Cell.num q
    | none => Cell.na

/-- `Series.fillna(0)` on one cell. -/
def fillna0 (c : Cell) : Cell :=
  match c with
  | Cell.na => Cell.num 0
  | c => c

/-- A worksheet: the raw grid of cells. -/
abbrev Sheet := List (List Cell)

/-- The Excel workbook: named sheets. -/
abbrev Workbook := List (String × Sheet)

/-- A frame as returned by `pd.read_excel` before the loader renames the
columns: the raw header cells plus the body rows. -/
structure RawFrame where
  header : List Cell
  body : List (List Cell)
deriving Repr, DecidableEq

/-- `pd.read_excel(DATA_FILE, sheet_name=ng, header=h, dtype=object)`:
fails when the sheet is missing or the header row is out of range; else
row `h` of the grid is the header and the rows below it are the data.
(pandas' renaming of duplicate or empty header cells is outside the model;
the sheets inspected here have distinct textual headers.) -/
def read_excel (wb : Workbook) (sheet_name : String) (h : Nat) : Except String RawFrame :=
  match lookupAssoc wb sheet_name with
  | none => Except.error "sheet not found"
  | some grid =>
    if hlt : h < grid.length then
      Except.ok { header := grid.get ⟨h, hlt⟩, body := grid.drop (h + 1) }
    else Except.error "header row out of range"

/-- Build a row from one body line under the given column names (short
lines are padded with NaN, as pandas does). -/
def rowOfCells (cols : List String) (cells : List Cell) : Row :=
  ⟨(List.range cols.length).map (fun i => (cols.getD i "", cells.getD i Cell.na))⟩

/-- One iteration of the loader's header loop: read with header row `h`,
rename every column to `str(c).strip()`, and accept the frame only when a
`Name` column results. -/
def try_header (wb : Workbook) (ng : String) (h : Nat) : Option DataFrame :=
  match read_excel wb ng h with
  | Except.error _ => none
  | Except.ok tmp =>
    let cols := tmp.header.map (fun c => pyStrip (pyStr c))
    if cols.contains "Name" then
      some { cols := cols, rows := tmp.body.map (rowOfCells cols) }
    else none

/-- The loader's `for header_row in (1, 0, 2)` loop with its `break`:
the first accepted candidate wins. -/
def findHeaderDF (wb : Workbook) (ng : String) : Option DataFrame :=
  match try_header wb ng 1 with
  | some df => some df
  | none =>
    match try_header wb ng 0 with
    | some df => some df
    | none => try_header wb ng 2

/-- The derived HP cell of one row (app.py lines 90–94): prefer
`to_numeric(dlcClear)` whenever the `dlcClear` cell is present and not the
dash placeholder, else `to_numeric(Health)`. -/
def derive_hp (df : DataFrame) (r : Row) : Cell :=
  let dlc := (df.cellOpt r "dlcClear").getD Cell.na
  if dlc ≠ Cell.na ∧ dlc ≠ Cell.str "-" then toNumericCell dlc
  else toNumericCell ((df.cellOpt r "Health").getD Cell.na)

/-- The numeric columns the loader coerces with
`pd.to_numeric(..., errors="coerce").fillna(0)`. -/
def NUMERIC_COLS : List String :=
  ["Phys", "Strike", "Slash", "Pierce", "Magic", "Fire", "Ltng", "Holy",
   "Phys.1", "Strike.1", "Slash.1", "Pierce.1", "Magic.1", "Fire.1", "Ltng.1", "Holy.1",
   "Base", "Effective", "Regen Delay",
   "Bleed.1", "Frost.1", "HP Burn Effect"]

/-- `df[c] = f(row)`: assign a whole column from a per-row function. -/
def DataFrame.setCol (df : DataFrame) (c : String) (f : Row → Cell) : DataFrame :=
  { cols := if df.cols.contains c then df.cols else df.cols ++ [c],
    rows := df.rows.map (fun r => r.set c (f r)) }

/-- `df[c] = values`: assign a whole column from a list of values (used for
the synthetic `ID` range). -/
def DataFrame.setColVals (df : DataFrame) (c : String) (vals : List Cell) : DataFrame :=
  { cols := if df.cols.contains c then df.cols else df.cols ++ [c],
    rows := (df.rows.zip vals).map (fun p => p.1.set c p.2) }

/-- Loader steps `df = df[df['Name'].notna()]` and
`df = df[df['Name'] != '???']`: drop unnamed and placeholder rows. -/
def drop_unnamed (df0 : DataFrame) : DataFrame :=
  let df1 : DataFrame :=
    { df0 with rows := df0.rows.filter (fun r => decide (r.cell "Name" ≠ Cell.na)) }
  { df1 with rows := df1.rows.filter (fun r => decide (r.cell "Name" ≠ Cell.str "???")) }

/-- Loader step `df['HP'] = df.apply(...)` followed by `fillna(0)`. -/
def with_hp (df : DataFrame) : DataFrame :=
  df.setCol "HP" (fun r => fillna0 (derive_hp df r))

/-- One iteration of the loader's numeric-coercion loop:
`if col in df.columns: df[col] = pd.to_numeric(df[col], errors="coerce").fillna(0)`. -/
def coerce_step (d : DataFrame) (col : String) : DataFrame :=
  if d.cols.contains col then d.setCol col (fun r => fillna0 (toNumericCell (r.cell col)))
  else d

/-- The loader's numeric-coercion loop over `NUMERIC_COLS`. -/
def coerce_numeric (df : DataFrame) : DataFrame :=
  NUMERIC_COLS.foldl coerce_step df

/-- Loader step `if 'ID' not in df.columns: df['ID'] = range(1, len(df)+1)`. -/
def ensure_id (df : DataFrame) : DataFrame :=
  if df.cols.contains "ID" then df
  else df.setColVals "ID" ((List.range df.rows.length).map (fun i => Cell.num ((i : ℚ) + 1)))

/-- The per-level normalization pipeline of `load_elden_ring_data` after
header detection: drop unnamed and placeholder rows, derive HP, coerce the
numeric columns, and synthesize a 1-based `ID` when absent. -/
def process_level (df0 : DataFrame) : DataFrame :=
  ensure_id (coerce_numeric (with_hp (drop_unnamed df0)))

/-- The fixed level identifiers. -/
def NG_LEVELS : List String :=
  ["NG", "NG+", "NG+2", "NG+3", "NG+4", "NG+5", "NG+6", "NG+7"]

/-- The process-wide dataset: level identifier → normalized frame. -/
abbrev EldenData := List (String × DataFrame)

/-- The per-level loop of `load_elden_ring_data`: levels whose header
detection fails are skipped with a diagnostic; successful levels are
normalized and stored (the global dict keeps entries the loop never
writes). -/
def ingest_levels (wb : Workbook) (st : EldenData) : EldenData × List String :=
  NG_LEVELS.foldl
    (fun acc ng =>
      match findHeaderDF wb ng with
      | none => (acc.1, acc.2 ++ ["Could not find Name column in " ++ ng])
      | some df => (updateAssoc acc.1 ng (process_level df), acc.2))
    (st, [])

/-- A dataset-cache artifact as seen by `pickle.load`: either the dataset
it deserializes to, or a deserialization failure. -/
abbrev CacheBlob := Except String EldenData

/-- `pickle.dump` of the dataset (pickle round-trips structurally). -/
def pickle_dump (d : EldenData) : CacheBlob := Except.ok d

/-- The Excel branch of `load_elden_ring_data`: a missing data file leaves
the dataset untouched; otherwise every level is ingested and, when the
resulting dict is non-empty, the dataset is pickled to the cache file.
Returns (new dataset, cache artifact written if any, diagnostics). -/
def ingest_path (data_file : Option Workbook) (st : EldenData) :
    EldenData × Option CacheBlob × List String :=
  match data_file with
  | none => (st, none, ["data file not found"])
  | some wb =>
    let p := ingest_levels wb st
    (p.1, if p.1.isEmpty then none else some (pickle_dump p.1), p.2)

/-- `load_elden_ring_data(force_reload)`: with the flag unset and a cache
artifact present, a successful `pickle.load` replaces the dataset and the
function returns at once; a failed load, a missing artifact, or the forced
flag all take the Excel branch. -/
def load_elden_ring_data (force_reload : Bool) (cache_file : Option CacheBlob)
    (data_file : Option Workbook) (st : EldenData) :
    EldenData × Option CacheBlob × List String :=
  match (if force_reload then none else cache_file) with
  | some (Except.ok cached) => (cached, none, [])
  | some (Except.error _) => ingest_path data_file st
  | none => ingest_path data_file st

/-- One result element of `search_enemies`: name, location and id are the
raw cells; hp is the coerced integer. -/
structure SearchHit where
  name : Cell
  location : Cell
  hp : ℤ
  id : Cell
deriving Repr, DecidableEq

/-- The hp field of a search hit:
`int(row['HP']) if pd.notna(row['HP']) and row['HP'] > 0 else 0`.
Comparing a textual cell with 0 is the TypeError Python would raise. -/
def hp_positive (c : Cell) : Except String ℤ :=
  match c with
  | Cell.na => Except.ok 0
  | Cell.num q => Except.ok (if 0 < q then truncQ q else 0)
  | Cell.str _ => Except.error "TypeError: str and int comparison"

/-- The dict built for one matching row of `search_enemies`. -/
def search_hit_of_row (df : DataFrame) (r : Row) : Except String SearchHit := do
  let nm ← df.item r "Name"
  let loc ← df.item r "Location"
  let hpCell ← df.item r "HP"
  let hp ← hp_positive hpCell
  let idc ← df.item r "ID"
  Except.ok { name := nm, location := loc, hp := hp, id := idc }

/-- `search_enemies(query, ng_level)` (app.py): empty list when the level
is absent; otherwise a case-insensitive substring match on `Name` and one
result dict per matching row, in dataset order. -/
def search_enemies (elden_data : EldenData) (query : String) (ng_level : String) :
    Except String (List SearchHit) :=
  match lookupAssoc elden_data ng_level with
  | none => Except.ok []
  | some df => do
    let _ ← df.col "Name"
    let results := df.rows.filter (fun r => str_contains_ci query (r.cell "Name"))
    mapE (search_hit_of_row df) results

/-- One result element of `search_by_region`. -/
structure RegionHit where
  name : Cell
  location : Cell
deriving Repr, DecidableEq

/-- `search_by_region(region, ng_level)` (app.py): empty list when the
level is absent; otherwise a case-insensitive substring match on
`Location`. -/
def search_by_region (elden_data : EldenData) (region : String) (ng_level : String) :
    Except String (List RegionHit) :=
  match lookupAssoc elden_data ng_level with
  | none => Except.ok []
  | some df => do
    let _ ← df.col "Location"
    let results := df.rows.filter (fun r => str_contains_ci region (r.cell "Location"))
    mapE
      (fun r => do
        let nm ← df.item r "Name"
        let loc ← df.item r "Location"
        Except.ok ({ name := nm, location := loc } : RegionHit))
      results

/-- One element of the `all_instances` list of `get_enemy_details`. -/
structure InstanceInfo where
  location : Cell
  hp : ℤ
deriving Repr, DecidableEq

/-- The details dict of `get_enemy_details`, flattened: the `dn_` fields
are the nested `damage_negation` dict, `res_` the `resistances` dict,
`poise_` the `poise` dict and `mult_` the `status_multipliers` dict. -/
structure EnemyDetails where
  name : Cell
  location : Cell
  hp : ℤ
  dn_physical : ℚ
  dn_strike : ℚ
  dn_slash : ℚ
  dn_pierce : ℚ
  dn_magic : ℚ
  dn_fire : ℚ
  dn_lightning : ℚ
  dn_holy : ℚ
  res_poison : ResVal
  res_scarlet_rot : ResVal
  res_bleed : ResVal
  res_frost : ResVal
  res_sleep : ResVal
  res_madness : ResVal
  res_deathblight : ResVal
  poise_base : ℤ
  poise_effective : ℤ
  poise_regen_delay : ℚ
  mult_bleed : ℚ
  mult_frost : ℚ
  mult_black_flame : ℚ
  has_weak_spots : Bool
  all_instances : List InstanceInfo
deriving Repr, DecidableEq

/-- The dict construction of `get_enemy_details` for the canonical row
`enemy`, including the `all_instances` loop over every exact-name match. -/
def build_details (df : DataFrame) (enemy : Row) (instances : List Row) :
    Except String EnemyDetails := do
  let nm ← df.item enemy "Name"
  let hpCell ← df.item enemy "HP"
  let insts ← mapE
    (fun inst => do
      let h ← df.item inst "HP"
      Except.ok ({ location := df.cellD inst "Location" (Cell.str "Unknown"),
                   hp := safe_int h 0 } : InstanceInfo))
    instances
  Except.ok
    { name := nm,
      location := df.cellD enemy "Location" (Cell.str "Unknown"),
      hp := safe_int hpCell 0,
      dn_physical := safe_float (df.cellD enemy "Phys.1" (Cell.num 0)) 0,
      dn_strike := safe_float (df.cellD enemy "Strike.1" (Cell.num 0)) 0,
      dn_slash := safe_float (df.cellD enemy "Slash.1" (Cell.num 0)) 0,
      dn_pierce := safe_float (df.cellD enemy "Pierce.1" (Cell.num 0)) 0,
      dn_magic := safe_float (df.cellD enemy "Magic.1" (Cell.num 0)) 0,
      dn_fire := safe_float (df.cellD enemy "Fire.1" (Cell.num 0)) 0,
      dn_lightning := safe_float (df.cellD enemy "Ltng.1" (Cell.num 0)) 0,
      dn_holy := safe_float (df.cellD enemy "Holy.1" (Cell.num 0)) 0,
      res_poison := format_resistance (df.cellD enemy "Poison" (Cell.num 999999)),
      res_scarlet_rot := format_resistance (df.cellD enemy "Scarlet Rot" (Cell.num 999999)),
      res_bleed := format_resistance (df.cellD enemy "Bleed" (Cell.num 999999)),
      res_frost := format_resistance (df.cellD enemy "Frost" (Cell.num 999999)),
      res_sleep := format_resistance (df.cellD enemy "Sleep" (Cell.num 999999)),
      res_madness := format_resistance (df.cellD enemy "Madness" (Cell.num 999999)),
      res_deathblight := format_resistance (df.cellD enemy "Deathblight" (Cell.num 999999)),
      poise_base := safe_int (df.cellD enemy "Base" (Cell.num 0)) 0,
      poise_effective := parse_poise (df.cellD enemy "Effective" (Cell.num 0)),
      poise_regen_delay := safe_float (df.cellD enemy "Regen Delay" (Cell.num 0)) 0,
      mult_bleed := safe_float (df.cellD enemy "Bleed.1" (Cell.num 1)) 0,
      mult_frost := safe_float (df.cellD enemy "Frost.1" (Cell.num 1)) 0,
      mult_black_flame := safe_float (df.cellD enemy "HP Burn Effect" (Cell.num 1)) 0,
      has_weak_spots := decide (safe_int (df.cellD enemy "Weak Part" (Cell.num 0)) 0 ≠ 0),
      all_instances := insts }

/-- `get_enemy_details(enemy_name, location, ng_level)` (app.py): exact
match on `Name`; Python's `if location and len(matches) > 0` makes the
location narrowing conditional on a non-empty (truthy) location string and
keeps all matches when nothing matches the location; the first remaining
match is canonical and `all_instances` is rebuilt from every exact-name
match. -/
def get_enemy_details (elden_data : EldenData) (enemy_name : String)
    (location : Option String) (ng_level : String) :
    Except String (Option EnemyDetails) :=
  match lookupAssoc elden_data ng_level with
  | none => Except.ok none
  | some df => do
    let _ ← df.col "Name"
    let matches0 := df.rows.filter (fun r => decide (r.cell "Name" = Cell.str enemy_name))
    let chosen ←
      match location with
      | some loc =>
        if loc ≠ "" ∧ matches0 ≠ [] then do
          let _ ← df.col "Location"
          let location_matches :=
            matches0.filter (fun r => decide (r.cell "Location" = Cell.str loc))
          Except.ok (if location_matches ≠ [] then location_matches else matches0)
        else Except.ok matches0
      | none => Except.ok matches0
    match chosen with
    | [] => Except.ok none
    | enemy :: _ => do
      let d ← build_details df enemy
        (df.rows.filter (fun r => decide (r.cell "Name" = Cell.str enemy_name)))
      Except.ok (some d)

/-- The seven averaged resistances of `calculate_region_average`. -/
structure ResAverages where
  poison : Option ℤ
  scarlet_rot : Option ℤ
  bleed : Option ℤ
  frost : Option ℤ
  sleep : Option ℤ
  madness : Option ℤ
  deathblight : Option ℤ
deriving Repr, DecidableEq

/-- The eight averaged damage negations of `calculate_region_average`. -/
structure NegAverages where
  physical : ℚ
  strike : ℚ
  slash : ℚ
  pierce : ℚ
  magic : ℚ
  fire : ℚ
  lightning : ℚ
  holy : ℚ
deriving Repr, DecidableEq

/-- The region-average record returned by `calculate_region_average`,
flattened like `EnemyDetails`. -/
structure RegionStats where
  region : String
  enemy_count : ℕ
  avg_hp : ℤ
  avg_damage_negation : NegAverages
  avg_resistances : ResAverages
  poise_base : ℚ
  poise_effective : ℚ
  poise_regen_delay : ℚ
  mult_bleed : ℚ
  mult_frost : ℚ
  mult_black_flame : ℚ
deriving Repr, DecidableEq

/-- The inner helper `avg_resistance` of `calculate_region_average`
(app.py lines 325–334): loop over the column of the region subset, skip
NaN and (case-insensitively, stripped) "immune" cells, keep values
`float()` accepts, and return `int(np.mean(values))`, or None when no
value survives.  `region_df[column_name]` raises KeyError when the column
is absent.  The value loop is split out here. -/
def avg_resistance_values (region_rows : List Row) (column_name : String) : List ℚ :=
  region_rows.foldl
    (fun acc r =>
      let val := r.cell column_name
      if val = Cell.na then acc
      else if pyLower (pyStrip (pyStr val)) = "immune" then acc
      else
        match pyFloat? val with
        | some q => acc ++ [q]
        | none => acc)
    []

/-- The guarded body of `avg_resistance` continued: None when no value
survived the loop, else the truncated mean. -/
def avg_resistance (df : DataFrame) (region_rows : List Row) (column_name : String) :
    Except String (Option ℤ) :=
  if df.cols.contains column_name then
    Except.ok
      (if avg_resistance_values region_rows column_name = [] then none
       else some (truncQ (meanQ (avg_resistance_values region_rows column_name))))
  else Except.error ("KeyError: " ++ column_name)

/-- The inner helper `safe_avg` of `calculate_region_average` (app.py
lines 337–342): 0 when the column is absent; otherwise
`pd.to_numeric(..., errors="coerce").dropna()` and
`round(mean, 1)` when any value remains, else 0. -/
def safe_avg (df : DataFrame) (region_rows : List Row) (col_name : String) : ℚ :=
  if df.cols.contains col_name then
    let numeric_vals := region_rows.filterMap (fun r => cellNum? (toNumericCell (r.cell col_name)))
    if numeric_vals = [] then 0 else roundQ1 (meanQ numeric_vals)
  else 0

/-- `Series.mean()` over the HP column of the region subset: pandas skips
NaN; a textual cell makes object-dtype mean raise. -/
def series_mean_vals (cells : List Cell) : Except String (List ℚ) :=
  if cells.any cellIsStr then Except.error "TypeError: mean of str"
  else Except.ok (cells.filterMap cellNum?)

/-- `calculate_region_average(region, ng_level)` (app.py): None when the
level is absent or no row's `Location` contains the region; otherwise the
averages record.  The seven `avg_resistance` calls index the resistance
columns unconditionally and so raise when one is missing. -/
def calculate_region_average (elden_data : EldenData) (region : String) (ng_level : String) :
    Except String (Option RegionStats) :=
  match lookupAssoc elden_data ng_level with
  | none => Except.ok none
  | some df => do
    let _ ← df.col "Location"
    let region_rows := df.rows.filter (fun r => str_contains_ci region (r.cell "Location"))
    if region_rows = [] then Except.ok none
    else do
      let _ ← df.col "HP"
      let hpNums ← series_mean_vals (region_rows.map (fun r => r.cell "HP"))
      let rp ← avg_resistance df region_rows "Poison"
      let rr ← avg_resistance df region_rows "Scarlet Rot"
      let rb ← avg_resistance df region_rows "Bleed"
      let rf ← avg_resistance df region_rows "Frost"
      let rs ← avg_resistance df region_rows "Sleep"
      let rm ← avg_resistance df region_rows "Madness"
      let rd ← avg_resistance df region_rows "Deathblight"
      Except.ok (some
        { region := region,
          enemy_count := region_rows.length,
          avg_hp := if hpNums ≠ [] then truncQ (meanQ hpNums) else 0,
          avg_damage_negation :=
            { physical := safe_avg df region_rows "Phys.1",
              strike := safe_avg df region_rows "Strike.1",
              slash := safe_avg df region_rows "Slash.1",
              pierce := safe_avg df region_rows "Pierce.1",
              magic := safe_avg df region_rows "Magic.1",
              fire := safe_avg df region_rows "Fire.1",
              lightning := safe_avg df region_rows "Ltng.1",
              holy := safe_avg df region_rows "Holy.1" },
          avg_resistances :=
            { poison := rp, scarlet_rot := rr, bleed := rb, frost := rf,
              sleep := rs, madness := rm, deathblight := rd },
          poise_base := safe_avg df region_rows "Base",
          poise_effective := safe_avg df region_rows "Effective",
          poise_regen_delay := safe_avg df region_rows "Regen Delay",
          mult_bleed := safe_avg df region_rows "Bleed.1",
          mult_frost := safe_avg df region_rows "Frost.1",
          mult_black_flame := safe_avg df region_rows "HP Burn Effect" })

/-- The advisory-cache state: the in-memory `ai_cache` dict and the
persisted `ai_cache.pkl` artifact.  `save_ai_cache` replaces the artifact
with the dict (the caught write-failure branch only loses persistence and
is outside the model). -/
structure AIState where
  ai_cache : List (String × String)
  disk : List (String × String)
deriving Repr, DecidableEq

/-- The argument `analyze_with_ai` receives: either the details dict of an
enemy or the averages dict of a region (the `context` string of the source
selects which keys are read, which the constructor encodes). -/
inductive AnalyzeData
  | enemy (d : EnemyDetails)
  | region (r : RegionStats)

/-- The natural-language prompt sent to the reasoning service.  The spec
places the prompt templates out of scope, so the template is abbreviated
to the data fields it interpolates; no claim inspects the prompt text. -/
def mkPrompt : AnalyzeData → String
  | AnalyzeData.enemy d => "enemy-prompt:" ++ pyStr d.name ++ ":" ++ pyStr d.location
  | AnalyzeData.region r => "region-prompt:" ++ r.region

/-- The fixed fallback advisory returned when the reasoning-service call
raises. -/
def AI_FALLBACK : String :=
  "Strategy analysis unavailable. Check enemy weaknesses in the stats."

/-- `analyze_with_ai(enemy_data, context)` (app.py): derive the cache key
(`enemy_{name}_{location}` or `region_{region}`), return a cached entry
without calling the service; on a miss call the injected service, write
the response into the dict, persist the dict, and return the response; a
service failure returns the fixed fallback text and touches nothing.
The third component records whether the service collaborator was
invoked. -/
def analyze_with_ai (svc : String → Except String String) (st : AIState)
    (data : AnalyzeData) : String × AIState × Bool :=
  let cache_key :=
    match data with
    | AnalyzeData.enemy d => "enemy_" ++ pyStr d.name ++ "_" ++ pyStr d.location
    | AnalyzeData.region r => "region_" ++ r.region
  match lookupAssoc st.ai_cache cache_key with
  | some cached => (cached, st, false)
  | none =>
    match svc (mkPrompt data) with
    | Except.ok response_text =>
      let cache := updateAssoc st.ai_cache cache_key response_text
      (response_text, { ai_cache := cache, disk := cache }, true)
    | Except.error _ => (AI_FALLBACK, st, true)

/-- The responses of the `/api/cache/update` admin endpoint. -/
inductive UpdateResp
  | badRequest (msg : String)
  | updated (cache_key : String) (message : String)
deriving Repr, DecidableEq

/-- `update_ai_cache` (app.py, `/api/cache/update`): reject a missing or
falsy (empty) `enemy_name` or `strategy` with a 400; otherwise write the
strategy under the key `enemy_{enemy_name}` — with no location component —
and persist the dict. -/
def update_ai_cache (st : AIState) (enemy_name : Option String)
    (strategy : Option String) : AIState × UpdateResp :=
  match enemy_name, strategy with
  | some nm, some strat =>
    if nm ≠ "" ∧ strat ≠ "" then
      let cache_key := "enemy_" ++ nm
      let cache := updateAssoc st.ai_cache cache_key strat
      ({ ai_cache := cache, disk := cache },
       UpdateResp.updated cache_key ("AI strategy updated for " ++ nm))
    else (st, UpdateResp.badRequest "Missing enemy_name or strategy")
  | _, _ => (st, UpdateResp.badRequest "Missing enemy_name or strategy")

/-- The advisory-lookup memoization key for an enemy instance. -/
def enemy_cache_key (name location : String) : String :=
  "enemy_" ++ name ++ "_" ++ location

/-- The key the admin cache-update endpoint writes. -/
def admin_cache_key (name : String) : String :=
  "enemy_" ++ name

/-- Monadic bind on a successful `Except` computation reduces to the
continuation. -/
theorem okBind {α β : Type} (a : α) (f : α → Except String β) :
    (Except.ok a >>= f : Except String β) = f a := rfl

/-- Looking a key up right after writing it finds the written value. -/
theorem lookupAssoc_updateAssoc_self {α : Type} (l : List (String × α)) (k : String) (v : α) :
    lookupAssoc (updateAssoc l k v) k = some v := by
  induction l with
  | nil => simp [updateAssoc, lookupAssoc]
  | cons p rest ih =>
    by_cases hp : p.1 = k
    · simp [updateAssoc, lookupAssoc, hp]
    · simp [updateAssoc, lookupAssoc, hp, ih]

/-- Writing one key leaves every other key's lookup unchanged. -/
theorem lookupAssoc_updateAssoc_ne {α : Type} (l : List (String × α)) (k k2 : String) (v : α)
    (h : k2 ≠ k) : lookupAssoc (updateAssoc l k v) k2 = lookupAssoc l k2 := by
  have hk : ¬(k = k2) := fun hkk => h (Eq.symm hkk)
  induction l with
  | nil => simp [updateAssoc, lookupAssoc, hk]
  | cons p rest ih =>
    by_cases hp : p.1 = k
    · simp [updateAssoc, lookupAssoc, hp, hk]
    · by_cases hp2 : p.1 = k2
      · simp [updateAssoc, lookupAssoc, hp, hp2, h, hk]
      · simp [updateAssoc, lookupAssoc, hp, hp2, ih]

/-- A cell read back right after `Row.set` on the same column. -/
theorem Row.cell_set_self (r : Row) (c : String) (v : Cell) : (r.set c v).cell c = v := by
  simp [Row.cell, Row.set, lookupAssoc_updateAssoc_self]

/-- `Row.set` leaves every other column's cell unchanged. -/
theorem Row.cell_set_ne (r : Row) (c c2 : String) (v : Cell) (h : c2 ≠ c) :
    (r.set c v).cell c2 = r.cell c2 := by
  simp [Row.cell, Row.set, lookupAssoc_updateAssoc_ne _ _ _ _ h]

/-- `mapE` succeeds when every element does. -/
theorem mapE_ok {α β : Type} (f : α → Except String β) :
    ∀ l : List α, (∀ a ∈ l, ∃ b, f a = Except.ok b) → ∃ bs, mapE f l = Except.ok bs
  | [], _ => ⟨[], rfl⟩
  | a :: t, h => by
    obtain ⟨b, hb⟩ := h a (by simp)
    obtain ⟨bs, hbs⟩ := mapE_ok f t (fun x hx => h x (by simp [hx]))
    exact ⟨b :: bs, by simp [mapE, hb, hbs]⟩

/-- `mapE` of a pointwise-successful function is the plain map of its
payloads. -/
theorem mapE_eq_map {α β : Type} (f : α → Except String β) (g : α → β) :
    ∀ l : List α, (∀ a ∈ l, f a = Except.ok (g a)) → mapE f l = Except.ok (l.map g)
  | [], _ => rfl
  | a :: t, h => by
    have hb := h a (by simp)
    have hbs := mapE_eq_map f g t (fun x hx => h x (by simp [hx]))
    simp [mapE, hb, hbs]

/-- Bool column membership gives propositional membership. -/
theorem mem_of_contains {l : List String} {c : String} (hc : l.contains c = true) : c ∈ l := by
  simpa using hc

/-- `df[c]` succeeds exactly on present columns. -/
theorem DataFrame.col_ok (df : DataFrame) (c : String) (hc : df.cols.contains c = true) :
    df.col c = Except.ok (df.rows.map (fun r => r.cell c)) := by
  simp [DataFrame.col, mem_of_contains hc]

/-- `row[c]` succeeds exactly on present columns. -/
theorem DataFrame.item_ok (df : DataFrame) (r : Row) (c : String)
    (hc : df.cols.contains c = true) : df.item r c = Except.ok (r.cell c) := by
  simp [DataFrame.item, mem_of_contains hc]

/-- The level frame for the C1 failing input: one row whose `dlcClear`
cell is the non-numeric text "abc" while `Health` is the number 100. -/
def dfC1 : DataFrame :=
  { cols := ["Name", "Health", "dlcClear"],
    rows := [⟨[("Name", Cell.str "X"), ("Health", Cell.num 100), ("dlcClear", Cell.str "abc")]⟩] }

/-- C1: on a row whose `dlcClear` cell is present, not the dash, but
non-numeric ("abc"), the loader derives hp = 0 instead of falling back to
the parse of the `Health` column (100): `pd.notna(dlcClear) and
dlcClear != '-'` takes the dlcClear branch for any present non-dash value,
coerces "abc" to NaN, and `fillna(0)` turns it into 0.  This contradicts
the claim (and the source's own comment "only use dlcClear if it's a
valid number"). -/
theorem C1_hp_prefers_non_numeric_dlcClear :
    (process_level dfC1).rows.map (fun r => r.cell "HP") = [Cell.num 0] ∧
    (process_level dfC1).rows.map (fun r => toNumericCell (r.cell "Health")) = [Cell.num 100] ∧
    Cell.num 0 ≠ Cell.num 100 := by
  exact ⟨by decide, by decide, by decide⟩

/-- C7: a dataset pickled to the cache artifact and loaded back without
the forced-reload flag is returned structurally unchanged, for every
prior state and every (even absent) Excel workbook — the ingestion loader
is skipped entirely; a cache artifact that fails to deserialize, or an
absent artifact, falls back to full ingestion. -/
theorem C7_dataset_cache_roundtrip :
    ∀ (d : EldenData) (wb : Option Workbook) (st : EldenData) (e : String),
      load_elden_ring_data false (some (pickle_dump d)) wb st = (d, none, []) ∧
      load_elden_ring_data false (some (Except.error e)) wb st = ingest_path wb st ∧
      load_elden_ring_data false none wb st = ingest_path wb st := by
  intro d wb st e
  exact ⟨rfl, rfl, rfl⟩

/-- C9: the admin cache-update endpoint writes under `enemy_{name}` while
the advisory lookup memoizes under `enemy_{name}_{location}`; for a
non-empty location the two keys always differ, so a lookup performed right
after an admin update for the same enemy still misses the cache and
invokes the reasoning service. -/
theorem C9_admin_key_never_hits_lookup :
    ∀ (name loc strat : String) (st : AIState) (svc : String → Except String String)
      (d : EnemyDetails),
      loc ≠ "" → name ≠ "" → strat ≠ "" →
      pyStr d.name = name → pyStr d.location = loc →
      lookupAssoc st.ai_cache (enemy_cache_key name loc) = none →
      admin_cache_key name ≠ enemy_cache_key name loc ∧
      lookupAssoc (update_ai_cache st (some name) (some strat)).1.ai_cache
        (enemy_cache_key name loc) = none ∧
      (analyze_with_ai svc (update_ai_cache st (some name) (some strat)).1
        (AnalyzeData.enemy d)).2.2 = true := by
  intro name loc strat st svc d hloc hname hstrat hdn hdl hmiss
  have hkey : admin_cache_key name ≠ enemy_cache_key name loc := by
    intro h
    have hlen := congrArg String.length h
    have hu : ("_" : String).length = 1 := rfl
    simp only [admin_cache_key, enemy_cache_key, String.length_append, hu] at hlen
    omega
  have hupd :
      (update_ai_cache st (some name) (some strat)).1.ai_cache =
        updateAssoc st.ai_cache (admin_cache_key name) strat := by
    simp [update_ai_cache, hname, hstrat, admin_cache_key]
  have hmiss2 :
      lookupAssoc (update_ai_cache st (some name) (some strat)).1.ai_cache
        (enemy_cache_key name loc) = none := by
    rw [hupd, lookupAssoc_updateAssoc_ne _ _ _ _ (Ne.symm hkey)]
    exact hmiss
  refine ⟨hkey, hmiss2, ?_⟩
  have hkeys : "enemy_" ++ pyStr d.name ++ "_" ++ pyStr d.location =
      enemy_cache_key name loc := by
    rw [hdn, hdl]; rfl
  simp only [analyze_with_ai, hkeys, hmiss2]
  cases svc (mkPrompt (AnalyzeData.enemy d)) <;> simp

/-- C10: when the reasoning-service call fails, the advisory lookup
returns the fixed fallback string and leaves both the in-memory cache and
the persisted artifact untouched, so a repeated call with the same data
misses again and invokes the service again. -/
theorem C10_service_failure_fallback_not_cached :
    ∀ (svc : String → Except String String) (st : AIState) (d : EnemyDetails) (e : String),
      lookupAssoc st.ai_cache ("enemy_" ++ pyStr d.name ++ "_" ++ pyStr d.location) = none →
      svc (mkPrompt (AnalyzeData.enemy d)) = Except.error e →
      analyze_with_ai svc st (AnalyzeData.enemy d) = (AI_FALLBACK, st, true) ∧
      analyze_with_ai svc (analyze_with_ai svc st (AnalyzeData.enemy d)).2.1
        (AnalyzeData.enemy d) = (AI_FALLBACK, st, true) := by
  intro svc st d e hmiss hfail
  have h1 : analyze_with_ai svc st (AnalyzeData.enemy d) = (AI_FALLBACK, st, true) := by
    simp [analyze_with_ai, hmiss, hfail]
  exact ⟨h1, by rw [h1]; exact h1⟩

/-- C6: the advisory cache key for an enemy is the deterministic string
`enemy_{name}_{location}`; a first lookup under that key invokes the
reasoning service, stores the response in the cache and persists the cache
to the artifact before returning the response, and a second call with the
same name and location returns the cached text without invoking the
service. -/
theorem C6_advisory_memoization :
    ∀ (svc : String → Except String String) (st : AIState) (d : EnemyDetails) (t : String),
      lookupAssoc st.ai_cache (enemy_cache_key (pyStr d.name) (pyStr d.location)) = none →
      svc (mkPrompt (AnalyzeData.enemy d)) = Except.ok t →
      (analyze_with_ai svc st (AnalyzeData.enemy d)).1 = t ∧
      (analyze_with_ai svc st (AnalyzeData.enemy d)).2.2 = true ∧
      lookupAssoc (analyze_with_ai svc st (AnalyzeData.enemy d)).2.1.ai_cache
        (enemy_cache_key (pyStr d.name) (pyStr d.location)) = some t ∧
      (analyze_with_ai svc st (AnalyzeData.enemy d)).2.1.disk =
        (analyze_with_ai svc st (AnalyzeData.enemy d)).2.1.ai_cache ∧
      analyze_with_ai svc (analyze_with_ai svc st (AnalyzeData.enemy d)).2.1
        (AnalyzeData.enemy d) =
        (t, (analyze_with_ai svc st (AnalyzeData.enemy d)).2.1, false) := by
  intro svc st d t hmiss hsvc
  have hkeys : "enemy_" ++ pyStr d.name ++ "_" ++ pyStr d.location =
      enemy_cache_key (pyStr d.name) (pyStr d.location) := rfl
  have h1 : analyze_with_ai svc st (AnalyzeData.enemy d) =
      (t, { ai_cache := updateAssoc st.ai_cache
              (enemy_cache_key (pyStr d.name) (pyStr d.location)) t,
            disk := updateAssoc st.ai_cache
              (enemy_cache_key (pyStr d.name) (pyStr d.location)) t }, true) := by
    simp [analyze_with_ai, hkeys, hmiss, hsvc]
  rw [h1]
  refine ⟨rfl, rfl, lookupAssoc_updateAssoc_self _ _ _, rfl, ?_⟩
  simp [analyze_with_ai, hkeys, lookupAssoc_updateAssoc_self]

/-- A concrete enemy-details record used to instantiate the advisory-cache
theorems. -/
def exDetails : EnemyDetails :=
  { name := Cell.str "Runebear", location := Cell.str "Limgrave", hp := 5000,
    dn_physical := 10, dn_strike := 0, dn_slash := 0, dn_pierce := 0, dn_magic := 0,
    dn_fire := 0, dn_lightning := 0, dn_holy := 0,
    res_poison := ResVal.val 150, res_scarlet_rot := ResVal.val 150,
    res_bleed := ResVal.val 150, res_frost := ResVal.val 150,
    res_sleep := ResVal.val 150, res_madness := ResVal.immune,
    res_deathblight := ResVal.immune, poise_base := 60, poise_effective := 60,
    poise_regen_delay := 5, mult_bleed := 1, mult_frost := 1, mult_black_flame := 1,
    has_weak_spots := false, all_instances := [] }

/-- A reasoning service that always answers. -/
def svcAnswering : String → Except String String := fun _ => Except.ok "advice"

/-- A reasoning service whose call always raises. -/
def svcRaising : String → Except String String := fun _ => Except.error "APIError"

/-- Witness for C9 at a concrete enemy, location and state. -/
theorem C9_witness :
    admin_cache_key "Runebear" ≠ enemy_cache_key "Runebear" "Limgrave" ∧
    lookupAssoc (update_ai_cache ⟨[], []⟩ (some "Runebear") (some "manual")).1.ai_cache
      (enemy_cache_key "Runebear" "Limgrave") = none ∧
    (analyze_with_ai svcAnswering (update_ai_cache ⟨[], []⟩ (some "Runebear") (some "manual")).1
      (AnalyzeData.enemy exDetails)).2.2 = true :=
  C9_admin_key_never_hits_lookup "Runebear" "Limgrave" "manual" ⟨[], []⟩ svcAnswering
    exDetails (by decide) (by decide) (by decide) rfl rfl rfl

/-- Witness for C10 at a concrete enemy and a raising service. -/
theorem C10_witness :
    analyze_with_ai svcRaising ⟨[], []⟩ (AnalyzeData.enemy exDetails) =
      (AI_FALLBACK, ⟨[], []⟩, true) ∧
    analyze_with_ai svcRaising
      (analyze_with_ai svcRaising ⟨[], []⟩ (AnalyzeData.enemy exDetails)).2.1
      (AnalyzeData.enemy exDetails) = (AI_FALLBACK, ⟨[], []⟩, true) :=
  C10_service_failure_fallback_not_cached svcRaising ⟨[], []⟩ exDetails "APIError" rfl rfl

/-- Witness for C6 at a concrete enemy and an answering service. -/
theorem C6_witness :
    (analyze_with_ai svcAnswering ⟨[], []⟩ (AnalyzeData.enemy exDetails)).1 = "advice" ∧
    (analyze_with_ai svcAnswering ⟨[], []⟩ (AnalyzeData.enemy exDetails)).2.2 = true ∧
    lookupAssoc (analyze_with_ai svcAnswering ⟨[], []⟩ (AnalyzeData.enemy exDetails)).2.1.ai_cache
      (enemy_cache_key (pyStr exDetails.name) (pyStr exDetails.location)) = some "advice" ∧
    (analyze_with_ai svcAnswering ⟨[], []⟩ (AnalyzeData.enemy exDetails)).2.1.disk =
      (analyze_with_ai svcAnswering ⟨[], []⟩ (AnalyzeData.enemy exDetails)).2.1.ai_cache ∧
    analyze_with_ai svcAnswering
      (analyze_with_ai svcAnswering ⟨[], []⟩ (AnalyzeData.enemy exDetails)).2.1
      (AnalyzeData.enemy exDetails) =
      ("advice", (analyze_with_ai svcAnswering ⟨[], []⟩ (AnalyzeData.enemy exDetails)).2.1, false) :=
  C6_advisory_memoization svcAnswering ⟨[], []⟩ exDetails "advice" rfl rfl

/-- Whether an `Except` computation finished without a (modelled) Python
exception. -/
def isOkE {α : Type} : Except String α → Bool
  | Except.ok _ => true
  | Except.error _ => false

/-- An equation to `Except.ok` certifies exception-freedom. -/
theorem isOkE_of_ok {α : Type} {e : Except String α} {v : α} (h : e = Except.ok v) :
    isOkE e = true := by rw [h]; rfl

/-- The column and cell conditions every loader-produced level satisfies
and under which the query operations cannot raise: the required `Name`
plus the optional `Location`, `HP`, `ID` and the seven resistance columns
are present, and the derived HP cells are numeric or missing, never
textual. -/
def wellFormedLevel (df : DataFrame) : Prop :=
  df.cols.contains "Name" = true ∧ df.cols.contains "Location" = true ∧
  df.cols.contains "HP" = true ∧ df.cols.contains "ID" = true ∧
  df.cols.contains "Poison" = true ∧ df.cols.contains "Scarlet Rot" = true ∧
  df.cols.contains "Bleed" = true ∧ df.cols.contains "Frost" = true ∧
  df.cols.contains "Sleep" = true ∧ df.cols.contains "Madness" = true ∧
  df.cols.contains "Deathblight" = true ∧
  ∀ r ∈ df.rows, cellIsStr (r.cell "HP") = false

/-- `avg_resistance` succeeds whenever its column is present. -/
theorem avg_resistance_ok (df : DataFrame) (rows : List Row) (c : String)
    (hc : df.cols.contains c = true) :
    avg_resistance df rows c = Except.ok
      (if avg_resistance_values rows c = [] then none
       else some (truncQ (meanQ (avg_resistance_values rows c)))) := by
  simp [avg_resistance, mem_of_contains hc]

/-- `Series.mean` succeeds on a column without textual cells. -/
theorem series_mean_ok (cells : List Cell) (h : cells.any cellIsStr = false) :
    series_mean_vals cells = Except.ok (cells.filterMap cellNum?) := by
  simp [series_mean_vals, h]

/-- `mapE` of an everywhere-successful pure function is a plain map. -/
theorem mapE_pure {α β : Type} (g : α → β) (l : List α) :
    mapE (fun a => Except.ok (g a)) l = Except.ok (l.map g) :=
  mapE_eq_map _ g l (fun _ _ => rfl)

/-- `hp_positive` succeeds on any non-textual cell. -/
theorem hp_positive_ok (c : Cell) (h : cellIsStr c = false) :
    ∃ z, hp_positive c = Except.ok z := by
  cases c with
  | na => exact ⟨0, rfl⟩
  | num q => exact ⟨_, rfl⟩
  | str s => simp [cellIsStr] at h

/-- The record `build_details` produces once its two bracket accesses are
known to succeed: every field is the sentinel-parsed cell of the canonical
row, and `all_instances` collects location and hp of every instance row. -/
theorem build_details_ok (df : DataFrame) (enemy : Row) (insts : List Row)
    (hName : df.cols.contains "Name" = true) (hHP : df.cols.contains "HP" = true) :
    build_details df enemy insts = Except.ok
      { name := enemy.cell "Name",
        location := df.cellD enemy "Location" (Cell.str "Unknown"),
        hp := safe_int (enemy.cell "HP") 0,
        dn_physical := safe_float (df.cellD enemy "Phys.1" (Cell.num 0)) 0,
        dn_strike := safe_float (df.cellD enemy "Strike.1" (Cell.num 0)) 0,
        dn_slash := safe_float (df.cellD enemy "Slash.1" (Cell.num 0)) 0,
        dn_pierce := safe_float (df.cellD enemy "Pierce.1" (Cell.num 0)) 0,
        dn_magic := safe_float (df.cellD enemy "Magic.1" (Cell.num 0)) 0,
        dn_fire := safe_float (df.cellD enemy "Fire.1" (Cell.num 0)) 0,
        dn_lightning := safe_float (df.cellD enemy "Ltng.1" (Cell.num 0)) 0,
        dn_holy := safe_float (df.cellD enemy "Holy.1" (Cell.num 0)) 0,
        res_poison := format_resistance (df.cellD enemy "Poison" (Cell.num 999999)),
        res_scarlet_rot := format_resistance (df.cellD enemy "Scarlet Rot" (Cell.num 999999)),
        res_bleed := format_resistance (df.cellD enemy "Bleed" (Cell.num 999999)),
        res_frost := format_resistance (df.cellD enemy "Frost" (Cell.num 999999)),
        res_sleep := format_resistance (df.cellD enemy "Sleep" (Cell.num 999999)),
        res_madness := format_resistance (df.cellD enemy "Madness" (Cell.num 999999)),
        res_deathblight := format_resistance (df.cellD enemy "Deathblight" (Cell.num 999999)),
        poise_base := safe_int (df.cellD enemy "Base" (Cell.num 0)) 0,
        poise_effective := parse_poise (df.cellD enemy "Effective" (Cell.num 0)),
        poise_regen_delay := safe_float (df.cellD enemy "Regen Delay" (Cell.num 0)) 0,
        mult_bleed := safe_float (df.cellD enemy "Bleed.1" (Cell.num 1)) 0,
        mult_frost := safe_float (df.cellD enemy "Frost.1" (Cell.num 1)) 0,
        mult_black_flame := safe_float (df.cellD enemy "HP Burn Effect" (Cell.num 1)) 0,
        has_weak_spots := decide (safe_int (df.cellD enemy "Weak Part" (Cell.num 0)) 0 ≠ 0),
        all_instances := insts.map (fun r =>
          { location := df.cellD r "Location" (Cell.str "Unknown"),
            hp := safe_int (r.cell "HP") 0 }) } := by
  simp [build_details, DataFrame.item_ok _ _ _ hName, DataFrame.item_ok _ _ _ hHP,
    okBind, mapE_pure]

/-- `List.any` is false when the predicate is false everywhere. -/
theorem listAny_false {α : Type} (p : α → Bool) :
    ∀ l : List α, (∀ a ∈ l, p a = false) → l.any p = false
  | [], _ => rfl
  | a :: t, h => by
    simp [List.any, h a (by simp), listAny_false p t (fun x hx => h x (by simp [hx]))]

/-- `search_enemies` cannot raise on a well-formed level. -/
theorem search_enemies_ok (data : EldenData) (q ng : String)
    (hwf : ∀ df, lookupAssoc data ng = some df → wellFormedLevel df) :
    isOkE (search_enemies data q ng) = true := by
  cases hl : lookupAssoc data ng with
  | none => simp [search_enemies, hl, isOkE]
  | some df =>
    obtain ⟨hName, hLoc, hHP, hID, _, _, _, _, _, _, _, hHPs⟩ := hwf df hl
    have hrow : ∀ r ∈ df.rows.filter (fun r => str_contains_ci q (r.cell "Name")),
        ∃ b, search_hit_of_row df r = Except.ok b := by
      intro r hr
      obtain ⟨z, hz⟩ := hp_positive_ok (r.cell "HP") (hHPs r (List.mem_filter.mp hr).1)
      refine ⟨{ name := r.cell "Name", location := r.cell "Location", hp := z,
                id := r.cell "ID" }, ?_⟩
      simp [search_hit_of_row, DataFrame.item_ok _ _ _ hName,
        DataFrame.item_ok _ _ _ hLoc, DataFrame.item_ok _ _ _ hHP,
        DataFrame.item_ok _ _ _ hID, hz, okBind]
    obtain ⟨bs, hbs⟩ := mapE_ok _ _ hrow
    have hres : search_enemies data q ng = Except.ok bs := by
      simp [search_enemies, hl, DataFrame.col_ok _ _ hName, okBind, hbs]
    exact isOkE_of_ok hres

/-- `search_by_region` cannot raise on a well-formed level. -/
theorem search_by_region_ok (data : EldenData) (region ng : String)
    (hwf : ∀ df, lookupAssoc data ng = some df → wellFormedLevel df) :
    isOkE (search_by_region data region ng) = true := by
  cases hl : lookupAssoc data ng with
  | none => simp [search_by_region, hl, isOkE]
  | some df =>
    obtain ⟨hName, hLoc, _⟩ := hwf df hl
    have hres : search_by_region data region ng = Except.ok
        ((df.rows.filter (fun r => str_contains_ci region (r.cell "Location"))).map
          (fun r => ({ name := r.cell "Name", location := r.cell "Location" } : RegionHit))) := by
      simp only [search_by_region, hl, DataFrame.col_ok _ _ hLoc, okBind,
        DataFrame.item_ok _ _ _ hName, DataFrame.item_ok _ _ _ hLoc]
      exact mapE_pure
        (fun (r : Row) => ({ name := r.cell "Name", location := r.cell "Location" } : RegionHit)) _
    exact isOkE_of_ok hres

/-- `get_enemy_details` cannot raise on a well-formed level. -/
theorem get_enemy_details_ok (data : EldenData) (name : String) (loc : Option String)
    (ng : String)
    (hwf : ∀ df, lookupAssoc data ng = some df → wellFormedLevel df) :
    isOkE (get_enemy_details data name loc ng) = true := by
  cases hl : lookupAssoc data ng with
  | none => simp [get_enemy_details, hl, isOkE]
  | some df =>
    obtain ⟨hName, hLoc, hHP, _⟩ := hwf df hl
    have htail : ∀ rows2 : List Row,
        isOkE ((match rows2 with
          | [] => Except.ok none
          | enemy :: _ => do
            let d ← build_details df enemy
              (df.rows.filter (fun r => decide (r.cell "Name" = Cell.str name)))
            Except.ok (some d)) : Except String (Option EnemyDetails)) = true := by
      intro rows2
      cases rows2 with
      | nil => rfl
      | cons e t =>
        show isOkE (build_details df e
          (df.rows.filter (fun r => decide (r.cell "Name" = Cell.str name))) >>=
            fun d => Except.ok (some d)) = true
        rw [build_details_ok df e _ hName hHP]
        rfl
    cases loc with
    | none =>
      simp only [get_enemy_details, hl, DataFrame.col_ok _ _ hName, okBind]
      exact htail _
    | some l =>
      simp only [get_enemy_details, hl, DataFrame.col_ok _ _ hName, okBind]
      by_cases hcond : l ≠ "" ∧
          df.rows.filter (fun r => decide (r.cell "Name" = Cell.str name)) ≠ []
      · rw [if_pos hcond]
        simp only [DataFrame.col_ok _ _ hLoc, okBind]
        exact htail _
      · rw [if_neg hcond]
        exact htail _

/-- `calculate_region_average` cannot raise on a well-formed level. -/
theorem calculate_region_average_ok (data : EldenData) (region ng : String)
    (hwf : ∀ df, lookupAssoc data ng = some df → wellFormedLevel df) :
    isOkE (calculate_region_average data region ng) = true := by
  cases hl : lookupAssoc data ng with
  | none => simp [calculate_region_average, hl, isOkE]
  | some df =>
    obtain ⟨hName, hLoc, hHP, hID, hPo, hSR, hBl, hFr, hSl, hMa, hDe, hHPs⟩ := hwf df hl
    simp only [calculate_region_average, hl, DataFrame.col_ok _ _ hLoc, okBind]
    by_cases hempty :
        df.rows.filter (fun r => str_contains_ci region (r.cell "Location")) = []
    · rw [if_pos hempty]
      rfl
    · rw [if_neg hempty]
      have hcells :
          ((df.rows.filter (fun r => str_contains_ci region (r.cell "Location"))).map
            (fun r => r.cell "HP")).any cellIsStr = false := by
        refine listAny_false _ _ (fun c hc => ?_)
        obtain ⟨r, hr, hrc⟩ := List.mem_map.mp hc
        rw [← hrc]
        exact hHPs r (List.mem_filter.mp hr).1
      simp only [DataFrame.col_ok _ _ hHP, okBind, series_mean_ok _ hcells,
        avg_resistance_ok _ _ _ hPo, avg_resistance_ok _ _ _ hSR,
        avg_resistance_ok _ _ _ hBl, avg_resistance_ok _ _ _ hFr,
        avg_resistance_ok _ _ _ hSl, avg_resistance_ok _ _ _ hMa,
        avg_resistance_ok _ _ _ hDe]
      rfl

/-- C2 (amended): the query-boundary operations are total — never raise,
returning a value or an explicit not-found signal — for literal
(metacharacter-free) query strings on levels carrying the columns the
operations index (`Name`, `Location`, `HP`, `ID` and the seven resistance
columns) with non-textual HP cells, which is what the loader produces; an
absent level or an empty match yields the explicit empty/None signal
inside `Except.ok`. -/
theorem C2_query_boundary_totality :
    ∀ (data : EldenData) (q region name : String) (loc : Option String) (ng : String),
      isLiteralPattern q = true → isLiteralPattern region = true →
      (∀ df, lookupAssoc data ng = some df → wellFormedLevel df) →
      isOkE (search_enemies data q ng) = true ∧
      isOkE (search_by_region data region ng) = true ∧
      isOkE (get_enemy_details data name loc ng) = true ∧
      isOkE (calculate_region_average data region ng) = true :=
  fun data q region name loc ng _ _ hwf =>
    ⟨search_enemies_ok data q ng hwf, search_by_region_ok data region ng hwf,
     get_enemy_details_ok data name loc ng hwf,
     calculate_region_average_ok data region ng hwf⟩

/-- A level table that lacks the optional `Location` column — the loader
only requires `Name`, so such a dataset is reachable. -/
def dfNoLocation : DataFrame :=
  { cols := ["Name", "HP", "ID"],
    rows := [⟨[("Name", Cell.str "Abc"), ("HP", Cell.num 5), ("ID", Cell.num 1)]⟩] }

/-- C2 (counterexample): on a dataset whose level lacks the optional
`Location` column, the name search, the region search and the region
aggregation all raise (a modelled KeyError) even for a plain literal
query, refuting the claim that every query-boundary operation is total
for datasets lacking optional columns such as `Location`. -/
theorem C2_counterexample_missing_location :
    search_enemies [("NG", dfNoLocation)] "a" "NG" = Except.error "KeyError: Location" ∧
    search_by_region [("NG", dfNoLocation)] "a" "NG" = Except.error "KeyError: Location" ∧
    calculate_region_average [("NG", dfNoLocation)] "a" "NG" =
      Except.error "KeyError: Location" ∧
    isLiteralPattern "a" = true := by
  exact ⟨rfl, rfl, rfl, by decide⟩

/-- A fully-columned one-row level used to instantiate the totality
theorem. -/
def dfWellFormed : DataFrame :=
  { cols := ["Name", "Location", "HP", "ID", "Poison", "Scarlet Rot", "Bleed", "Frost",
             "Sleep", "Madness", "Deathblight"],
    rows := [⟨[("Name", Cell.str "Runebear"), ("Location", Cell.str "Limgrave"),
               ("HP", Cell.num 5000), ("ID", Cell.num 1), ("Poison", Cell.num 150),
               ("Scarlet Rot", Cell.num 150), ("Bleed", Cell.num 150),
               ("Frost", Cell.num 150), ("Sleep", Cell.num 150),
               ("Madness", Cell.str "Immune"), ("Deathblight", Cell.str "Immune")]⟩] }

/-- Witness for C2 at a concrete well-formed dataset and literal queries. -/
theorem C2_witness :
    isOkE (search_enemies [("NG", dfWellFormed)] "bear" "NG") = true ∧
    isOkE (search_by_region [("NG", dfWellFormed)] "grave" "NG") = true ∧
    isOkE (get_enemy_details [("NG", dfWellFormed)] "Runebear" (some "Limgrave") "NG") = true ∧
    isOkE (calculate_region_average [("NG", dfWellFormed)] "grave" "NG") = true :=
  C2_query_boundary_totality [("NG", dfWellFormed)] "bear" "grave" "Runebear"
    (some "Limgrave") "NG" (by decide) (by decide)
    (fun df h => by
      have hd : dfWellFormed = df := by simpa [lookupAssoc] using h
      rw [← hd]
      unfold wellFormedLevel
      exact ⟨rfl, rfl, rfl, rfl, rfl, rfl, rfl, rfl, rfl, rfl, rfl, by decide⟩)

/-- The eligibility of one matched record's resistance cell per the spec:
the cell contributes its numeric value unless it is missing, the Immune
marker, or unparseable. -/
def eligible_resistance (column_name : String) (r : Row) : Option ℚ :=
  let val := r.cell column_name
  if val = Cell.na then none
  else if pyLower (pyStrip (pyStr val)) = "immune" then none
  else pyFloat? val

/-- The append-loop of `avg_resistance` collects exactly the eligible
values, in order. -/
theorem avg_resistance_foldl_eq (c : String) :
    ∀ (rows : List Row) (acc : List ℚ),
      rows.foldl
        (fun acc r =>
          let val := r.cell c
          if val = Cell.na then acc
          else if pyLower (pyStrip (pyStr val)) = "immune" then acc
          else
            match pyFloat? val with
            | some q => acc ++ [q]
            | none => acc)
        acc = acc ++ rows.filterMap (eligible_resistance c)
  | [], acc => by simp
  | r :: t, acc => by
    simp only [List.foldl_cons, List.filterMap_cons]
    by_cases h1 : r.cell c = Cell.na
    · simp [h1, eligible_resistance, avg_resistance_foldl_eq c t]
    · by_cases h2 : pyLower (pyStrip (pyStr (r.cell c))) = "immune"
      · simp [h1, h2, eligible_resistance, avg_resistance_foldl_eq c t]
      · cases h3 : pyFloat? (r.cell c) with
        | none => simp [h1, h2, h3, eligible_resistance, avg_resistance_foldl_eq c t]
        | some q => simp [h1, h2, h3, eligible_resistance, avg_resistance_foldl_eq c t]

/-- The value list of `avg_resistance` is the filter-map of the
eligibility function. -/
theorem avg_resistance_values_eq (c : String) (rows : List Row) :
    avg_resistance_values rows c = rows.filterMap (eligible_resistance c) := by
  simpa [avg_resistance_values] using avg_resistance_foldl_eq c rows []

/-- The level frame for the C3 counterexample: matched bleed resistances
200 and 401 plus one Immune. -/
def dfResist : DataFrame :=
  { cols := ["Name", "Location", "HP", "Poison", "Scarlet Rot", "Bleed", "Frost",
             "Sleep", "Madness", "Deathblight"],
    rows :=
      [⟨[("Name", Cell.str "A"), ("Location", Cell.str "Limgrave"), ("HP", Cell.num 100),
         ("Poison", Cell.num 10), ("Scarlet Rot", Cell.num 10), ("Bleed", Cell.num 200),
         ("Frost", Cell.num 10), ("Sleep", Cell.num 10), ("Madness", Cell.num 10),
         ("Deathblight", Cell.num 10)]⟩,
       ⟨[("Name", Cell.str "B"), ("Location", Cell.str "Limgrave"), ("HP", Cell.num 100),
         ("Poison", Cell.num 10), ("Scarlet Rot", Cell.num 10), ("Bleed", Cell.num 401),
         ("Frost", Cell.num 10), ("Sleep", Cell.num 10), ("Madness", Cell.num 10),
         ("Deathblight", Cell.num 10)]⟩,
       ⟨[("Name", Cell.str "C"), ("Location", Cell.str "Limgrave"), ("HP", Cell.num 100),
         ("Poison", Cell.num 10), ("Scarlet Rot", Cell.num 10), ("Bleed", Cell.str "Immune"),
         ("Frost", Cell.num 10), ("Sleep", Cell.num 10), ("Madness", Cell.num 10),
         ("Deathblight", Cell.num 10)]⟩] }

unseal Rat.add Rat.mul Rat.inv Rat.sub in
/-- C3 (counterexample): with eligible bleed values 200 and 401 (one
record Immune), the aggregation returns 300, which is not the arithmetic
mean 601/2 = 300.5 of the eligible values — `int(np.mean(values))`
truncates. -/
theorem C3_counterexample_truncation :
    (calculate_region_average [("NG", dfResist)] "Limgrave" "NG").map
      (Option.map (fun s => s.avg_resistances.bleed)) = Except.ok (some (some 300)) ∧
    dfResist.rows.filterMap (eligible_resistance "Bleed") = [200, 401] ∧
    meanQ [200, 401] = 601 / 2 ∧
    ¬((300 : ℚ) = 601 / 2) := by
  exact ⟨rfl, by decide, by decide, by decide⟩

/-- The spec's example frame: matched bleed resistances 200 and 400 plus
one Immune. -/
def dfResistSpec : DataFrame :=
  { cols := dfResist.cols,
    rows :=
      [⟨[("Name", Cell.str "A"), ("Location", Cell.str "Limgrave"), ("HP", Cell.num 100),
         ("Poison", Cell.num 10), ("Scarlet Rot", Cell.num 10), ("Bleed", Cell.num 200),
         ("Frost", Cell.num 10), ("Sleep", Cell.num 10), ("Madness", Cell.num 10),
         ("Deathblight", Cell.num 10)]⟩,
       ⟨[("Name", Cell.str "B"), ("Location", Cell.str "Limgrave"), ("HP", Cell.num 100),
         ("Poison", Cell.num 10), ("Scarlet Rot", Cell.num 10), ("Bleed", Cell.num 400),
         ("Frost", Cell.num 10), ("Sleep", Cell.num 10), ("Madness", Cell.num 10),
         ("Deathblight", Cell.num 10)]⟩,
       ⟨[("Name", Cell.str "C"), ("Location", Cell.str "Limgrave"), ("HP", Cell.num 100),
         ("Poison", Cell.num 10), ("Scarlet Rot", Cell.num 10), ("Bleed", Cell.str "Immune"),
         ("Frost", Cell.num 10), ("Sleep", Cell.num 10), ("Madness", Cell.num 10),
         ("Deathblight", Cell.num 10)]⟩] }

unseal Rat.add Rat.mul Rat.inv Rat.sub in
/-- C3 (amended): for a present resistance column, the per-status average
is None when no matched record carries an eligible value (neither missing,
Immune, nor unparseable), and otherwise the integer truncation toward zero
of the arithmetic mean of exactly the eligible values — Immune and unknown
entries are excluded from numerator and denominator alike; in particular
the spec's example (values 200 and 400 plus one Immune) yields 300. -/
theorem C3_resistance_average_truncated_mean :
    (∀ (df : DataFrame) (rows : List Row) (c : String),
      df.cols.contains c = true →
      avg_resistance df rows c = Except.ok
        (if rows.filterMap (eligible_resistance c) = [] then none
         else some (truncQ
           ((rows.filterMap (eligible_resistance c)).sum /
            ((rows.filterMap (eligible_resistance c)).length : ℚ))))) ∧
    (calculate_region_average [("NG", dfResistSpec)] "Limgrave" "NG").map
      (Option.map (fun s => s.avg_resistances.bleed)) = Except.ok (some (some 300)) := by
  constructor
  · intro df rows c hc
    rw [avg_resistance_ok df rows c hc, avg_resistance_values_eq c rows]
    rfl
  · rfl

unseal Rat.add Rat.mul Rat.inv Rat.sub in
/-- Witness for C3 on the example frame's rows and its `Bleed` column. -/
theorem C3_witness :
    avg_resistance dfResistSpec dfResistSpec.rows "Bleed" = Except.ok
      (if dfResistSpec.rows.filterMap (eligible_resistance "Bleed") = [] then none
       else some (truncQ
         ((dfResistSpec.rows.filterMap (eligible_resistance "Bleed")).sum /
          ((dfResistSpec.rows.filterMap (eligible_resistance "Bleed")).length : ℚ)))) :=
  C3_resistance_average_truncated_mean.1 dfResistSpec dfResistSpec.rows "Bleed" (by decide)

/-- The narrowing rule as the claim words it: with a supplied location,
narrow to the exact-name matches at that location whenever at least one
exists, otherwise keep all exact-name matches.  (Comparison definition
for the refinement; the code additionally requires the location string to
be truthy.) -/
def claim_narrow (df : DataFrame) (name : String) (loc : Option String) : List Row :=
  let m0 := df.rows.filter (fun r => decide (r.cell "Name" = Cell.str name))
  match loc with
  | none => m0
  | some l =>
    let lm := m0.filter (fun r => decide (r.cell "Location" = Cell.str l))
    if lm = [] then m0 else lm

/-- A level with two same-named records, one of them at the empty-string
location. -/
def dfDup : DataFrame :=
  { cols := ["Name", "Location", "HP"],
    rows := [⟨[("Name", Cell.str "X"), ("Location", Cell.str "A"), ("HP", Cell.num 10)]⟩,
             ⟨[("Name", Cell.str "X"), ("Location", Cell.str ""), ("HP", Cell.num 20)]⟩] }

/-- C4 (counterexample): with the supplied location `""` — for which an
exact-name match at that location exists (hp 20) — the claim requires
narrowing to that match, but Python's `if location and ...` treats the
empty string as unsupplied, so the code keeps all matches and returns the
hp-10 record at location "A" as canonical. -/
theorem C4_counterexample_empty_location :
    (get_enemy_details [("NG", dfDup)] "X" (some "") "NG").map
      (Option.map (fun d => (d.hp, d.location))) = Except.ok (some (10, Cell.str "A")) ∧
    (claim_narrow dfDup "X" (some "")).map (fun r => safe_int (r.cell "HP") 0) = [20] ∧
    ¬((10 : ℤ) = 20) := by
  exact ⟨rfl, by decide, by decide⟩

/-- The code's detail lookup, reduced to the claim's narrowing rule for a
non-empty supplied location: the first remaining match is canonical and
the details are built against the full exact-name match list. -/
theorem get_enemy_details_eq_claim_narrow (data : EldenData) (name : String)
    (loc : Option String) (ng : String) (df : DataFrame)
    (hlook : lookupAssoc data ng = some df)
    (hName : df.cols.contains "Name" = true)
    (hLoc : df.cols.contains "Location" = true)
    (hHP : df.cols.contains "HP" = true)
    (hloc : ∀ l, loc = some l → l ≠ "") :
    get_enemy_details data name loc ng =
      (match claim_narrow df name loc with
       | [] => Except.ok none
       | enemy :: _ =>
         Except.map some (build_details df enemy
           (df.rows.filter (fun r => decide (r.cell "Name" = Cell.str name))))) := by
  cases loc with
  | none =>
    simp only [get_enemy_details, hlook, DataFrame.col_ok _ _ hName, okBind,
      claim_narrow]
    cases hM : df.rows.filter (fun r => decide (r.cell "Name" = Cell.str name)) with
    | nil => rfl
    | cons e t =>
      show (build_details df e (e :: t) >>= fun d => Except.ok (some d)) =
        Except.map some (build_details df e (e :: t))
      rw [build_details_ok df e _ hName hHP]
      rfl
  | some l =>
    have hl : l ≠ "" := hloc l rfl
    simp only [get_enemy_details, hlook, DataFrame.col_ok _ _ hName, okBind,
      claim_narrow]
    cases hM : df.rows.filter (fun r => decide (r.cell "Name" = Cell.str name)) with
    | nil =>
      have hcond : ¬(l ≠ "" ∧ ([] : List Row) ≠ []) := by simp
      rw [if_neg hcond]
      simp
    | cons e t =>
      rw [if_pos ⟨hl, by simp⟩]
      simp only [DataFrame.col_ok _ _ hLoc, okBind]
      by_cases hlm : List.filter (fun r => decide (r.cell "Location" = Cell.str l)) (e :: t) = []
      · rw [hlm]
        have h1 : ¬(([] : List Row) ≠ []) := by simp
        rw [if_neg h1, if_pos rfl]
        show (build_details df e (e :: t) >>= fun d => Except.ok (some d)) =
          Except.map some (build_details df e (e :: t))
        rw [build_details_ok df e _ hName hHP]
        rfl
      · have h2 : List.filter (fun r => decide (r.cell "Location" = Cell.str l)) (e :: t) ≠ [] :=
          hlm
        rw [if_pos h2, if_neg hlm]
        cases hF : List.filter (fun r => decide (r.cell "Location" = Cell.str l)) (e :: t) with
        | nil => exact absurd hF hlm
        | cons f fs =>
          show (build_details df f (e :: t) >>= fun d => Except.ok (some d)) =
            Except.map some (build_details df f (e :: t))
          rw [build_details_ok df f _ hName hHP]
          rfl

/-- An empty claim-narrowed list means no exact-name match at all. -/
theorem claim_narrow_nil_iff (df : DataFrame) (name : String) (loc : Option String) :
    claim_narrow df name loc = [] ↔
      df.rows.filter (fun r => decide (r.cell "Name" = Cell.str name)) = [] := by
  cases loc with
  | none => simp [claim_narrow]
  | some l =>
    simp only [claim_narrow]
    by_cases hlm : (df.rows.filter (fun r => decide (r.cell "Name" = Cell.str name))).filter
        (fun r => decide (r.cell "Location" = Cell.str l)) = []
    · rw [if_pos hlm]
    · rw [if_neg hlm]
      constructor
      · intro h
        exact absurd h hlm
      · intro h
        rw [h] at hlm
        simp at hlm

/-- C4 (amended): for a non-empty supplied location, `get_enemy_details`
narrows to the exact-name matches at that location exactly when one
exists, otherwise keeps all exact-name matches; the first remaining match
is the canonical instance; `all_instances` lists location and hp of every
exact-name match regardless of the location filter; and the result is
absent exactly when there is no exact-name match.  (The code treats a
supplied empty-string location as unsupplied — Python truthiness — which
is the one departure from the claim as stated.) -/
theorem C4_details_location_narrowing :
    ∀ (data : EldenData) (name : String) (loc : Option String) (ng : String)
      (df : DataFrame),
      lookupAssoc data ng = some df →
      df.cols.contains "Name" = true →
      df.cols.contains "Location" = true →
      df.cols.contains "HP" = true →
      (∀ l, loc = some l → l ≠ "") →
      (get_enemy_details data name loc ng =
        (match claim_narrow df name loc with
         | [] => Except.ok none
         | enemy :: _ =>
           Except.map some (build_details df enemy
             (df.rows.filter (fun r => decide (r.cell "Name" = Cell.str name)))))) ∧
      (∀ dd, get_enemy_details data name loc ng = Except.ok (some dd) →
        dd.all_instances =
          (df.rows.filter (fun r => decide (r.cell "Name" = Cell.str name))).map
            (fun r => { location := df.cellD r "Location" (Cell.str "Unknown"),
                        hp := safe_int (r.cell "HP") 0 })) ∧
      ((get_enemy_details data name loc ng = Except.ok none) ↔
        df.rows.filter (fun r => decide (r.cell "Name" = Cell.str name)) = []) := by
  intro data name loc ng df hlook hName hLoc hHP hloc
  have hmain := get_enemy_details_eq_claim_narrow data name loc ng df hlook hName hLoc hHP hloc
  refine ⟨hmain, ?_, ?_⟩
  · intro dd hdd
    rw [hmain] at hdd
    cases hcn : claim_narrow df name loc with
    | nil =>
      rw [hcn] at hdd
      simp at hdd
    | cons e t =>
      rw [hcn] at hdd
      have hdd2 : Except.map some (build_details df e
          (df.rows.filter (fun r => decide (r.cell "Name" = Cell.str name)))) =
          Except.ok (some dd) := hdd
      rw [build_details_ok df e _ hName hHP] at hdd2
      simp only [Except.map] at hdd2
      injection hdd2 with hdd3
      injection hdd3 with hdd4
      rw [← hdd4]
  · rw [hmain]
    constructor
    · intro h
      cases hcn : claim_narrow df name loc with
      | nil => exact (claim_narrow_nil_iff df name loc).mp hcn
      | cons e t =>
        rw [hcn] at h
        have h1 : Except.map some (build_details df e
            (df.rows.filter (fun r => decide (r.cell "Name" = Cell.str name)))) =
            Except.ok none := h
        rw [build_details_ok df e _ hName hHP] at h1
        simp only [Except.map] at h1
        injection h1 with h2
        exact absurd h2 (by simp)
    · intro hM
      rw [(claim_narrow_nil_iff df name loc).mpr hM]

/-- Witness for C4 on the duplicate-name level with location "A". -/
theorem C4_witness :
    (get_enemy_details [("NG", dfDup)] "X" (some "A") "NG" =
      (match claim_narrow dfDup "X" (some "A") with
       | [] => Except.ok none
       | enemy :: _ =>
         Except.map some (build_details dfDup enemy
           (dfDup.rows.filter (fun r => decide (r.cell "Name" = Cell.str "X")))))) ∧
    ((get_enemy_details [("NG", dfDup)] "X" (some "A") "NG" = Except.ok none) ↔
      dfDup.rows.filter (fun r => decide (r.cell "Name" = Cell.str "X")) = []) :=
  have h := C4_details_location_narrowing [("NG", dfDup)] "X" (some "A") "NG" dfDup rfl rfl
    rfl rfl (fun l hl => by injection hl with h2; rw [← h2]; decide)
  ⟨h.1, h.2.2⟩

/-- A workbook whose `NG` sheet has a valid `Name` header at row 0 (so the
preferred row-1 candidate fails and the loader falls through) and whose
`NG+` sheet offers no `Name` column at any candidate row. -/
def wbHdr : Workbook :=
  [("NG", [[Cell.str "Name", Cell.str "Location", Cell.str "Health"],
           [Cell.str "Bob", Cell.str "Limgrave", Cell.str "100"]]),
   ("NG+", [[Cell.str "junk"]])]

/-- C5: header detection tries the candidate rows in the fixed order
1, 0, 2 and accepts the first whose trimmed, stringified column set
contains `Name`; a sheet with `Name` at row 0 but not at row 1 still loads
(from row 0), and a level with no accepted candidate is skipped with a
diagnostic while the other levels still load. -/
theorem C5_header_detection_order :
    (∀ (wb : Workbook) (ng : String),
      findHeaderDF wb ng =
        (if (try_header wb ng 1).isSome then try_header wb ng 1
         else if (try_header wb ng 0).isSome then try_header wb ng 0
         else try_header wb ng 2)) ∧
    (∀ (wb : Workbook) (ng : String) (h : Nat) (tmp : RawFrame),
      read_excel wb ng h = Except.ok tmp →
      try_header wb ng h =
        (if (tmp.header.map (fun c => pyStrip (pyStr c))).contains "Name" then
          some { cols := tmp.header.map (fun c => pyStrip (pyStr c)),
                 rows := tmp.body.map
                   (rowOfCells (tmp.header.map (fun c => pyStrip (pyStr c)))) }
         else none)) ∧
    (try_header wbHdr "NG" 1 = none ∧
     findHeaderDF wbHdr "NG" = try_header wbHdr "NG" 0 ∧
     (findHeaderDF wbHdr "NG").map (fun df => df.cols) =
       some ["Name", "Location", "Health"] ∧
     findHeaderDF wbHdr "NG+" = none ∧
     "Could not find Name column in NG+" ∈ (ingest_levels wbHdr []).2 ∧
     (lookupAssoc (ingest_levels wbHdr []).1 "NG").isSome = true ∧
     lookupAssoc (ingest_levels wbHdr []).1 "NG+" = none) := by
  refine ⟨?_, ?_, ?_⟩
  · intro wb ng
    cases h1 : try_header wb ng 1 <;> cases h0 : try_header wb ng 0 <;>
      simp [findHeaderDF, h1, h0]
  · intro wb ng h tmp hread
    simp [try_header, hread]
  · exact ⟨rfl, rfl, rfl, rfl, by decide, rfl, rfl⟩

/-- The raw frame `read_excel` yields on the witness workbook's `NG` sheet
with header row 0. -/
def wbHdrNGRow0 : RawFrame :=
  { header := [Cell.str "Name", Cell.str "Location", Cell.str "Health"],
    body := [[Cell.str "Bob", Cell.str "Limgrave", Cell.str "100"]] }

/-- Witness for C5 at the concrete workbook, header candidate 0. -/
theorem C5_witness :
    try_header wbHdr "NG" 0 =
      (if (wbHdrNGRow0.header.map (fun c => pyStrip (pyStr c))).contains "Name" then
        some { cols := wbHdrNGRow0.header.map (fun c => pyStrip (pyStr c)),
               rows := wbHdrNGRow0.body.map
                 (rowOfCells (wbHdrNGRow0.header.map (fun c => pyStrip (pyStr c)))) }
       else none) :=
  C5_header_detection_order.2.1 wbHdr "NG" 0 wbHdrNGRow0 rfl

/-- Coercion with `fillna(0)` always yields a numeric cell. -/
theorem fillna_toNumeric_num (x : Cell) : ∃ q, fillna0 (toNumericCell x) = Cell.num q := by
  cases x with
  | na => exact ⟨0, rfl⟩
  | num q => exact ⟨q, rfl⟩
  | str s =>
    cases h : parseFloat? s with
    | none => exact ⟨0, by simp [toNumericCell, h, fillna0]⟩
    | some q => exact ⟨q, by simp [toNumericCell, h, fillna0]⟩

/-- Every cell of a column is numeric. -/
def allNumCol (d : DataFrame) (col : String) : Prop :=
  ∀ r ∈ d.rows, ∃ q, r.cell col = Cell.num q

/-- One coercion-loop step never destroys an all-numeric column. -/
theorem coerce_step_preserves (d : DataFrame) (c2 col : String)
    (h : allNumCol d col) : allNumCol (coerce_step d c2) col := by
  intro r2 hr2
  unfold coerce_step at hr2
  by_cases hc : d.cols.contains c2 = true
  · rw [if_pos hc] at hr2
    simp only [DataFrame.setCol, List.mem_map] at hr2
    obtain ⟨r0, hr0, hre⟩ := hr2
    rw [← hre]
    by_cases hcc : col = c2
    · rw [hcc, Row.cell_set_self]
      exact fillna_toNumeric_num _
    · rw [Row.cell_set_ne _ _ _ _ hcc]
      exact h r0 hr0
  · rw [if_neg hc] at hr2
    exact h r2 hr2

/-- The coercion-loop step for a present column makes it all numeric. -/
theorem coerce_step_establishes (d : DataFrame) (c2 : String)
    (hc : d.cols.contains c2 = true) : allNumCol (coerce_step d c2) c2 := by
  intro r2 hr2
  unfold coerce_step at hr2
  rw [if_pos hc] at hr2
  simp only [DataFrame.setCol, List.mem_map] at hr2
  obtain ⟨r0, hr0, hre⟩ := hr2
  rw [← hre, Row.cell_set_self]
  exact fillna_toNumeric_num _

/-- The coercion-loop step never changes the column list. -/
theorem coerce_step_cols (d : DataFrame) (c2 : String) :
    (coerce_step d c2).cols = d.cols := by
  unfold coerce_step
  by_cases hc : d.cols.contains c2 = true
  · rw [if_pos hc]
    simp [DataFrame.setCol, mem_of_contains hc]
  · rw [if_neg hc]

/-- Folding the coercion loop preserves an all-numeric column. -/
theorem foldl_coerce_preserves (col : String) :
    ∀ (list : List String) (d : DataFrame), allNumCol d col →
      allNumCol (list.foldl coerce_step d) col
  | [], _, h => h
  | c2 :: t, d, h => foldl_coerce_preserves col t _ (coerce_step_preserves d c2 col h)

/-- The coercion loop never changes the column list. -/
theorem foldl_coerce_cols :
    ∀ (list : List String) (d : DataFrame), (list.foldl coerce_step d).cols = d.cols
  | [], _ => rfl
  | c2 :: t, d => by
    rw [List.foldl_cons, foldl_coerce_cols t _, coerce_step_cols]

/-- After the coercion loop, every present looped-over column is all
numeric. -/
theorem foldl_coerce_numeric (col : String) :
    ∀ (list : List String) (d : DataFrame), col ∈ list →
      d.cols.contains col = true →
      allNumCol (list.foldl coerce_step d) col
  | [], _, hmem, _ => absurd hmem (List.not_mem_nil col)
  | c2 :: t, d, hmem, hc => by
    by_cases hcc : col = c2
    · rw [List.foldl_cons]
      rw [← hcc]
      exact foldl_coerce_preserves col t _ (coerce_step_establishes d col hc)
    · have hmem2 : col ∈ t := by
        cases List.mem_cons.mp hmem with
        | inl h => exact absurd h hcc
        | inr h => exact h
      rw [List.foldl_cons]
      exact foldl_coerce_numeric col t _ hmem2 (by rw [coerce_step_cols]; exact hc)

/-- `setColVals` on another column preserves an all-numeric column. -/
theorem setColVals_preserves (d : DataFrame) (c2 col : String) (vals : List Cell)
    (hcc : col ≠ c2) (h : allNumCol d col) : allNumCol (d.setColVals c2 vals) col := by
  intro r2 hr2
  simp only [DataFrame.setColVals, List.mem_map] at hr2
  obtain ⟨p, hp, hre⟩ := hr2
  rw [← hre, Row.cell_set_ne _ _ _ _ hcc]
  exact h p.1 (List.of_mem_zip hp).1

/-- Every numeric-coercion column that survives into a processed level is
all numeric there: the loader's `to_numeric(...).fillna(0)` has replaced
every unparseable cell by 0 and every parseable one by its number. -/
theorem process_level_numeric (df0 : DataFrame) (col : String)
    (hmem : col ∈ NUMERIC_COLS)
    (hc : (process_level df0).cols.contains col = true) :
    allNumCol (process_level df0) col := by
  have hid : col ≠ "ID" := by
    intro h
    rw [h] at hmem
    revert hmem
    decide
  unfold process_level ensure_id at hc ⊢
  by_cases hcid : (coerce_numeric (with_hp (drop_unnamed df0))).cols.contains "ID" = true
  · rw [if_pos hcid] at hc ⊢
    unfold coerce_numeric at hc ⊢
    rw [foldl_coerce_cols] at hc
    exact foldl_coerce_numeric col NUMERIC_COLS _ hmem hc
  · rw [if_neg hcid] at hc ⊢
    apply setColVals_preserves _ _ _ _ hid
    unfold coerce_numeric at hc ⊢
    have hcid2 : ¬(with_hp (drop_unnamed df0)).cols.contains "ID" = true := by
      unfold coerce_numeric at hcid
      rwa [foldl_coerce_cols] at hcid
    have hc2 : (with_hp (drop_unnamed df0)).cols.contains col = true := by
      simp only [DataFrame.setColVals, foldl_coerce_cols] at hc
      rw [if_neg hcid2] at hc
      have hmem3 := mem_of_contains hc
      rw [List.mem_append] at hmem3
      cases hmem3 with
      | inl h => simpa using h
      | inr h =>
        simp at h
        exact absurd h hid
    exact foldl_coerce_numeric col NUMERIC_COLS _ hmem hc2

/-- The averaging rule as the claim words it for a damage-negation field:
mean of the (already-coerced) numeric values of all matched records,
rounded to one decimal; 0 when the column is absent or no record matches. -/
def neg_claim_avg (df : DataFrame) (matched : List Row) (col : String) : ℚ :=
  if df.cols.contains col then
    if matched = [] then 0
    else roundQ1 (meanQ (matched.map (fun r => (cellNum? (r.cell col)).getD 0)))
  else 0

/-- On an all-numeric column the coerce-and-drop pipeline of `safe_avg`
keeps exactly one value per row. -/
theorem filterMap_toNumeric_all_num (c : String) :
    ∀ rows : List Row, (∀ r ∈ rows, ∃ q, r.cell c = Cell.num q) →
      rows.filterMap (fun r => cellNum? (toNumericCell (r.cell c))) =
        rows.map (fun r => (cellNum? (r.cell c)).getD 0)
  | [], _ => rfl
  | r :: t, h => by
    obtain ⟨q, hq⟩ := h r (by simp)
    have ih := filterMap_toNumeric_all_num c t (fun x hx => h x (by simp [hx]))
    rw [List.filterMap_cons, List.map_cons, hq, ih]
    rfl

/-- On an all-numeric column — which the loader guarantees for every
present numeric-coercion column — `safe_avg` averages over all matched
records, zeros included. -/
theorem safe_avg_eq_claim (df : DataFrame) (matched : List Row) (col : String)
    (hnum : df.cols.contains col = true → ∀ r ∈ matched, ∃ q, r.cell col = Cell.num q) :
    safe_avg df matched col = neg_claim_avg df matched col := by
  by_cases hc : df.cols.contains col = true
  · unfold safe_avg neg_claim_avg
    rw [if_pos hc]
    rw [if_pos hc]
    rw [filterMap_toNumeric_all_num col matched (hnum hc)]
    by_cases hm : matched = []
    · simp [hm]
    · rw [if_neg (by simpa using hm), if_neg hm]
  · unfold safe_avg neg_claim_avg
    rw [if_neg hc]
    rw [if_neg hc]

/-- The record `calculate_region_average` produces on a level with the
needed columns, no textual HP cells, and at least one match. -/
theorem calculate_region_average_eq (data : EldenData) (region ng : String) (df : DataFrame)
    (hlook : lookupAssoc data ng = some df)
    (hLoc : df.cols.contains "Location" = true)
    (hHP : df.cols.contains "HP" = true)
    (hPo : df.cols.contains "Poison" = true) (hSR : df.cols.contains "Scarlet Rot" = true)
    (hBl : df.cols.contains "Bleed" = true) (hFr : df.cols.contains "Frost" = true)
    (hSl : df.cols.contains "Sleep" = true) (hMa : df.cols.contains "Madness" = true)
    (hDe : df.cols.contains "Deathblight" = true)
    (hHPs : ∀ r ∈ df.rows, cellIsStr (r.cell "HP") = false)
    (hne : df.rows.filter (fun r => str_contains_ci region (r.cell "Location")) ≠ []) :
    calculate_region_average data region ng = Except.ok (some
      (let region_rows := df.rows.filter (fun r => str_contains_ci region (r.cell "Location"))
       let hpNums := (region_rows.map (fun r => r.cell "HP")).filterMap cellNum?
       { region := region,
         enemy_count := region_rows.length,
         avg_hp := if hpNums ≠ [] then truncQ (meanQ hpNums) else 0,
         avg_damage_negation :=
           { physical := safe_avg df region_rows "Phys.1",
             strike := safe_avg df region_rows "Strike.1",
             slash := safe_avg df region_rows "Slash.1",
             pierce := safe_avg df region_rows "Pierce.1",
             magic := safe_avg df region_rows "Magic.1",
             fire := safe_avg df region_rows "Fire.1",
             lightning := safe_avg df region_rows "Ltng.1",
             holy := safe_avg df region_rows "Holy.1" },
         avg_resistances :=
           { poison := if avg_resistance_values region_rows "Poison" = [] then none
               else some (truncQ (meanQ (avg_resistance_values region_rows "Poison"))),
             scarlet_rot := if avg_resistance_values region_rows "Scarlet Rot" = [] then none
               else some (truncQ (meanQ (avg_resistance_values region_rows "Scarlet Rot"))),
             bleed := if avg_resistance_values region_rows "Bleed" = [] then none
               else some (truncQ (meanQ (avg_resistance_values region_rows "Bleed"))),
             frost := if avg_resistance_values region_rows "Frost" = [] then none
               else some (truncQ (meanQ (avg_resistance_values region_rows "Frost"))),
             sleep := if avg_resistance_values region_rows "Sleep" = [] then none
               else some (truncQ (meanQ (avg_resistance_values region_rows "Sleep"))),
             madness := if avg_resistance_values region_rows "Madness" = [] then none
               else some (truncQ (meanQ (avg_resistance_values region_rows "Madness"))),
             deathblight := if avg_resistance_values region_rows "Deathblight" = [] then none
               else some (truncQ (meanQ (avg_resistance_values region_rows "Deathblight"))) },
         poise_base := safe_avg df region_rows "Base",
         poise_effective := safe_avg df region_rows "Effective",
         poise_regen_delay := safe_avg df region_rows "Regen Delay",
         mult_bleed := safe_avg df region_rows "Bleed.1",
         mult_frost := safe_avg df region_rows "Frost.1",
         mult_black_flame := safe_avg df region_rows "HP Burn Effect" })) := by
  have hcells : ((df.rows.filter (fun r => str_contains_ci region (r.cell "Location"))).map
      (fun r => r.cell "HP")).any cellIsStr = false := by
    refine listAny_false _ _ (fun c hc => ?_)
    obtain ⟨r, hr, hrc⟩ := List.mem_map.mp hc
    rw [← hrc]
    exact hHPs r (List.mem_filter.mp hr).1
  simp only [calculate_region_average, hlook, DataFrame.col_ok _ _ hLoc, okBind]
  rw [if_neg hne]
  simp only [DataFrame.col_ok _ _ hHP, okBind, series_mean_ok _ hcells,
    avg_resistance_ok _ _ _ hPo, avg_resistance_ok _ _ _ hSR, avg_resistance_ok _ _ _ hBl,
    avg_resistance_ok _ _ _ hFr, avg_resistance_ok _ _ _ hSl, avg_resistance_ok _ _ _ hMa,
    avg_resistance_ok _ _ _ hDe]

/-- C8: on loader-produced data — where `pd.to_numeric(...).fillna(0)` has
already replaced every unparseable cell of a present negation column by 0
(second conjunct) — each of the 8 average damage negations is the mean of
the field over all matched records, coerced zeros included, rounded to one
decimal, and 0 when the column is absent; the dropna inside `safe_avg`
drops nothing because no NaN survives the load. -/
theorem C8_negation_average_all_matched :
    (∀ (data : EldenData) (region ng : String) (df : DataFrame),
      lookupAssoc data ng = some df →
      df.cols.contains "Location" = true → df.cols.contains "HP" = true →
      df.cols.contains "Poison" = true → df.cols.contains "Scarlet Rot" = true →
      df.cols.contains "Bleed" = true → df.cols.contains "Frost" = true →
      df.cols.contains "Sleep" = true → df.cols.contains "Madness" = true →
      df.cols.contains "Deathblight" = true →
      (∀ r ∈ df.rows, cellIsStr (r.cell "HP") = false) →
      (∀ col, col ∈ NUMERIC_COLS → df.cols.contains col = true → allNumCol df col) →
      df.rows.filter (fun r => str_contains_ci region (r.cell "Location")) ≠ [] →
      (calculate_region_average data region ng).map
          (Option.map RegionStats.avg_damage_negation) =
        Except.ok (some
          (let matched := df.rows.filter (fun r => str_contains_ci region (r.cell "Location"))
           { physical := neg_claim_avg df matched "Phys.1",
             strike := neg_claim_avg df matched "Strike.1",
             slash := neg_claim_avg df matched "Slash.1",
             pierce := neg_claim_avg df matched "Pierce.1",
             magic := neg_claim_avg df matched "Magic.1",
             fire := neg_claim_avg df matched "Fire.1",
             lightning := neg_claim_avg df matched "Ltng.1",
             holy := neg_claim_avg df matched "Holy.1" }))) ∧
    (∀ (df0 : DataFrame) (col : String), col ∈ NUMERIC_COLS →
      (process_level df0).cols.contains col = true →
      allNumCol (process_level df0) col) := by
  refine ⟨?_, process_level_numeric⟩
  intro data region ng df hlook hLoc hHP hPo hSR hBl hFr hSl hMa hDe hHPs hnum hne
  rw [calculate_region_average_eq data region ng df hlook hLoc hHP hPo hSR hBl hFr hSl hMa
    hDe hHPs hne]
  have hcol : ∀ col, col ∈ NUMERIC_COLS →
      (df.cols.contains col = true →
        ∀ r ∈ df.rows.filter (fun r => str_contains_ci region (r.cell "Location")),
          ∃ q, r.cell col = Cell.num q) :=
    fun col hm hc r hr => hnum col hm hc r (List.mem_filter.mp hr).1
  simp only [Except.map, Option.map]
  rw [safe_avg_eq_claim df _ "Phys.1" (hcol _ (by decide)),
    safe_avg_eq_claim df _ "Strike.1" (hcol _ (by decide)),
    safe_avg_eq_claim df _ "Slash.1" (hcol _ (by decide)),
    safe_avg_eq_claim df _ "Pierce.1" (hcol _ (by decide)),
    safe_avg_eq_claim df _ "Magic.1" (hcol _ (by decide)),
    safe_avg_eq_claim df _ "Fire.1" (hcol _ (by decide)),
    safe_avg_eq_claim df _ "Ltng.1" (hcol _ (by decide)),
    safe_avg_eq_claim df _ "Holy.1" (hcol _ (by decide))]

/-- A two-row level with one damage-negation column (`Phys.1`) whose cells
are numeric, one of them the coerced 0. -/
def dfNeg : DataFrame :=
  { cols := ["Name", "Location", "HP", "Phys.1", "Poison", "Scarlet Rot", "Bleed", "Frost",
             "Sleep", "Madness", "Deathblight"],
    rows :=
      [⟨[("Name", Cell.str "A"), ("Location", Cell.str "Limgrave"), ("HP", Cell.num 100),
         ("Phys.1", Cell.num 10), ("Poison", Cell.num 10), ("Scarlet Rot", Cell.num 10),
         ("Bleed", Cell.num 10), ("Frost", Cell.num 10), ("Sleep", Cell.num 10),
         ("Madness", Cell.num 10), ("Deathblight", Cell.num 10)]⟩,
       ⟨[("Name", Cell.str "B"), ("Location", Cell.str "Limgrave"), ("HP", Cell.num 300),
         ("Phys.1", Cell.num 0), ("Poison", Cell.num 10), ("Scarlet Rot", Cell.num 10),
         ("Bleed", Cell.num 10), ("Frost", Cell.num 10), ("Sleep", Cell.num 10),
         ("Madness", Cell.num 10), ("Deathblight", Cell.num 10)]⟩] }

/-- Witness for C8 on the concrete two-row level. -/
theorem C8_witness :
    (calculate_region_average [("NG", dfNeg)] "Limgrave" "NG").map
        (Option.map RegionStats.avg_damage_negation) =
      Except.ok (some
        (let matched := dfNeg.rows.filter (fun r => str_contains_ci "Limgrave" (r.cell "Location"))
         { physical := neg_claim_avg dfNeg matched "Phys.1",
           strike := neg_claim_avg dfNeg matched "Strike.1",
           slash := neg_claim_avg dfNeg matched "Slash.1",
           pierce := neg_claim_avg dfNeg matched "Pierce.1",
           magic := neg_claim_avg dfNeg matched "Magic.1",
           fire := neg_claim_avg dfNeg matched "Fire.1",
           lightning := neg_claim_avg dfNeg matched "Ltng.1",
           holy := neg_claim_avg dfNeg matched "Holy.1" })) :=
  C8_negation_average_all_matched.1 [("NG", dfNeg)] "Limgrave" "NG" dfNeg rfl rfl rfl rfl rfl
    rfl rfl rfl rfl rfl (by decide)
    (by
      have hphys : ∀ col ∈ NUMERIC_COLS, dfNeg.cols.contains col = true → col = "Phys.1" := by
        decide
      intro col hm hc
      rw [hphys col hm hc]
      intro r hr
      simp only [dfNeg, List.mem_cons, List.not_mem_nil, or_false] at hr
      rcases hr with h | h <;> rw [h] <;> exact ⟨_, rfl⟩)
    (by decide)
